import Mathlib

/-!
# OpenGL triangle renderer

A shallow embedding of the native side of the retained renderer
(`app/src/main/cpp/opengl_renderer.cpp`) and of the one-shot renderer
(`app/src/main/cpp/opengl_triangle_render.cpp`), together with theorems about them.

* Handles and pointers (`EGLDisplay`, `EGLSurface`, `ANativeWindow *`, `jobject`, ...) are
  natural numbers, `0` being the null / `EGL_NO_*` value.
* `GLenum`, `EGLenum`, `GLuint` are natural numbers (32-bit values); `GLint`, `EGLint` are integers.
* The EGL / GLES / JNI / NDK functions are external.  They are modelled by a `Driver`: a record of
  answer functions, each of which may depend on the whole history of calls issued so far.
* Every external call is appended to a trace (`List Call`), oldest call first.
* `assert` aborts the process when its condition is false: functions that contain assertions
  return `Option`, `none` meaning the process was aborted.
-/

namespace GLRenderer

/-! ## Constants of the GLES2 / EGL / JNI headers -/

def GL_NO_ERROR : Nat := 0
def GL_INVALID_ENUM : Nat := 0x0500
def GL_INVALID_VALUE : Nat := 0x0501
def GL_INVALID_OPERATION : Nat := 0x0502
def GL_STACK_OVERFLOW_KHR : Nat := 0x0503
def GL_STACK_UNDERFLOW_KHR : Nat := 0x0504
def GL_OUT_OF_MEMORY : Nat := 0x0505
def GL_INVALID_FRAMEBUFFER_OPERATION : Nat := 0x0506

def EGL_SUCCESS : Nat := 0x3000
def EGL_NOT_INITIALIZED : Nat := 0x3001
def EGL_BAD_ACCESS : Nat := 0x3002
def EGL_BAD_ALLOC : Nat := 0x3003
def EGL_BAD_ATTRIBUTE : Nat := 0x3004
def EGL_BAD_CONFIG : Nat := 0x3005
def EGL_BAD_CONTEXT : Nat := 0x3006
def EGL_BAD_CURRENT_SURFACE : Nat := 0x3007
def EGL_BAD_DISPLAY : Nat := 0x3008
def EGL_BAD_MATCH : Nat := 0x3009
def EGL_BAD_NATIVE_PIXMAP : Nat := 0x300A
def EGL_BAD_NATIVE_WINDOW : Nat := 0x300B
def EGL_BAD_PARAMETER : Nat := 0x300C
def EGL_BAD_SURFACE : Nat := 0x300D
def EGL_CONTEXT_LOST : Nat := 0x300E

/-! ## Error classifier -/

/-- The sixteen lowercase hexadecimal digit characters, in order of value. -/
def hexChars : List Char := "0123456789abcdef".toList

/-- The digit character that `std::hex` (without `std::uppercase`) prints for a digit value. -/
def hexDigitChar (d : Nat) : Char := hexChars.getD d '0'

/-- Digits of `n` in base 16, most significant first, prepended to `acc`; `fuel` bounds the
number of digits produced (`n + 1` is always enough). -/
def hexDigitsAux : Nat → Nat → List Char → List Char
  | 0, _, acc => acc
  | fuel + 1, n, acc =>
    if n < 16 then hexDigitChar n :: acc
    else hexDigitsAux fuel (n / 16) (hexDigitChar (n % 16) :: acc)

/-- What `oss << std::hex << n` writes for an unsigned `n` when no field width is set: the
shortest lowercase hexadecimal numeral of `n`. -/
def hexDigits (n : Nat) : List Char := hexDigitsAux (n + 1) n []

/-- Right-adjusted output in a field: `std::setw(width)` with `std::right` and
`std::setfill(fill)`.  The width is a minimum; longer text is written in full. -/
def padRight (width : Nat) (fill : Char) (cs : List Char) : List Char :=
  List.replicate (width - cs.length) fill ++ cs

/-- The text written by
`std::setfill('0') << std::setw(4) << std::right << std::hex << error`. -/
def hexField (error : Nat) : List Char := padRight 4 '0' (hexDigits error)

/-- `GLErrorString` of the source: the name of a GL error code. -/
def GLErrorString (error : Nat) : String :=
  if error = GL_NO_ERROR then "GL_NO_ERROR"
  else if error = GL_INVALID_ENUM then "GL_INVALID_ENUM"
  else if error = GL_INVALID_VALUE then "GL_INVALID_VALUE"
  else if error = GL_INVALID_OPERATION then "GL_INVALID_OPERATION"
  else if error = GL_STACK_OVERFLOW_KHR then "GL_STACK_OVERFLOW"
  else if error = GL_STACK_UNDERFLOW_KHR then "GL_STACK_UNDERFLOW"
  else if error = GL_OUT_OF_MEMORY then "GL_OUT_OF_MEMORY"
  else if error = GL_INVALID_FRAMEBUFFER_OPERATION then "GL_INVALID_FRAMEBUFFER_OPERATION"
  else "<Unknown GL Error 0x" ++ String.mk (hexField error) ++ ">"

/-- `EGLErrorString` of the source: the name of an EGL error code. -/
def EGLErrorString (error : Nat) : String :=
  if error = EGL_SUCCESS then "EGL_SUCCESS"
  else if error = EGL_NOT_INITIALIZED then "EGL_NOT_INITIALIZED"
  else if error = EGL_BAD_ACCESS then "EGL_BAD_ACCESS"
  else if error = EGL_BAD_ALLOC then "EGL_BAD_ALLOC"
  else if error = EGL_BAD_ATTRIBUTE then "EGL_BAD_ATTRIBUTE"
  else if error = EGL_BAD_CONTEXT then "EGL_BAD_CONTEXT"
  else if error = EGL_BAD_CONFIG then "EGL_BAD_CONFIG"
  else if error = EGL_BAD_CURRENT_SURFACE then "EGL_BAD_CURRENT_SURFACE"
  else if error = EGL_BAD_DISPLAY then "EGL_BAD_DISPLAY"
  else if error = EGL_BAD_SURFACE then "EGL_BAD_SURFACE"
  else if error = EGL_BAD_MATCH then "EGL_BAD_MATCH"
  else if error = EGL_BAD_PARAMETER then "EGL_BAD_PARAMETER"
  else if error = EGL_BAD_NATIVE_PIXMAP then "EGL_BAD_NATIVE_PIXMAP"
  else if error = EGL_BAD_NATIVE_WINDOW then "EGL_BAD_NATIVE_WINDOW"
  else if error = EGL_CONTEXT_LOST then "EGL_CONTEXT_LOST"
  else "<Unknown EGL Error 0x" ++ String.mk (hexField error) ++ ">"

/-- The codes that have a `case` label in `GLErrorString`. -/
def GLRecognized : List Nat :=
  [GL_NO_ERROR, GL_INVALID_ENUM, GL_INVALID_VALUE, GL_INVALID_OPERATION, GL_STACK_OVERFLOW_KHR,
   GL_STACK_UNDERFLOW_KHR, GL_OUT_OF_MEMORY, GL_INVALID_FRAMEBUFFER_OPERATION]

/-- The codes that have a `case` label in `EGLErrorString`. -/
def EGLRecognized : List Nat :=
  [EGL_SUCCESS, EGL_NOT_INITIALIZED, EGL_BAD_ACCESS, EGL_BAD_ALLOC, EGL_BAD_ATTRIBUTE,
   EGL_BAD_CONTEXT, EGL_BAD_CONFIG, EGL_BAD_CURRENT_SURFACE, EGL_BAD_DISPLAY, EGL_BAD_SURFACE,
   EGL_BAD_MATCH, EGL_BAD_PARAMETER, EGL_BAD_NATIVE_PIXMAP, EGL_BAD_NATIVE_WINDOW,
   EGL_CONTEXT_LOST]

/-- Value of a hexadecimal digit character (`16` for any other character). -/
def hexCharValue (c : Char) : Nat := hexChars.indexOf c

/-- Numeric value of a hexadecimal numeral, most significant digit first. -/
def hexValue (cs : List Char) : Nat := cs.foldl (fun acc c => 16 * acc + hexCharValue c) 0

/-! ## More header constants -/

def EGL_DEFAULT_DISPLAY : Nat := 0
def EGL_NO_DISPLAY : Nat := 0
def EGL_NO_CONTEXT : Nat := 0
def EGL_NO_SURFACE : Nat := 0
def EGL_TRUE : Nat := 1
def EGL_VENDOR : Nat := 0x3053
def EGL_VERSION : Nat := 0x3054
def EGL_RENDERABLE_TYPE : Nat := 0x3040
def EGL_OPENGL_ES2_BIT : Nat := 0x0004
def EGL_SURFACE_TYPE : Nat := 0x3033
def EGL_WINDOW_BIT : Nat := 0x0004
def EGL_PBUFFER_BIT : Nat := 0x0001
def EGL_RECORDABLE_ANDROID : Nat := 0x3142
def EGL_NONE : Nat := 0x3038
def EGL_CONTEXT_CLIENT_VERSION : Nat := 0x3098
def EGL_WIDTH : Nat := 0x3057
def EGL_HEIGHT : Nat := 0x3056
def GL_VENDOR : Nat := 0x1F00
def GL_RENDERER : Nat := 0x1F01
def GL_VERSION : Nat := 0x1F02
def GL_SHADING_LANGUAGE_VERSION : Nat := 0x8B8C
def GL_VERTEX_SHADER : Nat := 0x8B31
def GL_FRAGMENT_SHADER : Nat := 0x8B30
def GL_COMPILE_STATUS : Nat := 0x8B81
def GL_LINK_STATUS : Nat := 0x8B82
def GL_INFO_LOG_LENGTH : Nat := 0x8B84
def GL_FLOAT : Nat := 0x1406
def GL_TRIANGLES : Nat := 0x0004
def EGL_RED_SIZE : Nat := 0x3024
def EGL_GREEN_SIZE : Nat := 0x3023
def EGL_BLUE_SIZE : Nat := 0x3022
def GL_COLOR_BUFFER_BIT : Nat := 0x00004000
def GL_DEPTH_BUFFER_BIT : Nat := 0x00000100
def GL_STENCIL_BUFFER_BIT : Nat := 0x00000400
def GL_SCISSOR_TEST : Nat := 0x0C11
def GL_LINE_LOOP : Nat := 0x0002
def JNI_OK : Int := 0
def ANDROID_LOG_DEBUG : Nat := 3
def ANDROID_LOG_ERROR : Nat := 6

/-- The global `LOG_TAG` of the source. -/
def LOG_TAG : String := "OpenGLRenderer"

/-- The raw string `VERTEX_SHADER_SRC` of the source. -/
def VERTEX_SHADER_SRC : String :=
  "\n        attribute vec4 vPosition;\n        void main()\x7b\n            gl_Position = vPosition;\n        \x7d\n    "

/-- The raw string `FRAGMENT_SHARED_SRC` of the source. -/
def FRAGMENT_SHARED_SRC : String :=
  "\n        precision mediump float;\n        uniform vec4 vColor;\n        void main()\x7b\n            gl_FragColor = vColor;\n        \x7d\n    "

/-! ## External calls and the driver -/

/-- A `GLfloat` constant, given by its IEEE-754 binary32 bit pattern. -/
abbrev GLfloat := Nat

/-- Conversion of a `GLint` argument to a `GLuint` parameter. -/
def toGLuint (i : Int) : Nat := (i % 4294967296).toNat

/-- Conversion of a `GLuint` value to a `GLint` variable. -/
def toGLint (n : Nat) : Int :=
  let v : Int := (n % 4294967296 : Nat)
  if v < 2147483648 then v else v - 4294967296

/-- One call to an external function (EGL, GLES2, NDK window, JNI, Android log), with the
arguments the code passes.  Output parameters are not part of the call; the `Driver` gives their
values. -/
inductive Call where
  | eglGetDisplay (displayId : Nat)
  | eglInitialize (dpy : Nat)
  | eglQueryString (dpy name : Nat)
  | eglChooseConfig (dpy : Nat) (attribs : List Nat) (configSize : Int)
  | eglCreateContext (dpy config share : Nat) (attribs : List Nat)
  | eglCreatePbufferSurface (dpy config : Nat) (attribs : List Nat)
  | eglCreateWindowSurface (dpy config window : Nat)
  | eglMakeCurrent (dpy draw read ctx : Nat)
  | eglGetError
  | eglDestroySurface (dpy surface : Nat)
  | eglDestroyContext (dpy ctx : Nat)
  | eglTerminate (dpy : Nat)
  | glGetString (name : Nat)
  | glCreateShader (shaderType : Nat)
  | glShaderSource (shader : Nat) (src : String)
  | glCompileShader (shader : Nat)
  | glGetShaderiv (shader pname : Nat)
  | glGetShaderInfoLog (shader : Nat) (bufSize : Int)
  | glCreateProgram
  | glAttachShader (program shader : Nat)
  | glLinkProgram (program : Nat)
  | glGetProgramiv (program pname : Nat)
  | glGetProgramInfoLog (program : Nat) (bufSize : Int)
  | glDeleteProgram (program : Nat)
  | glDeleteTextures (names : List Nat)
  | glGetAttribLocation (program : Nat) (name : String)
  | glGetUniformLocation (program : Nat) (name : String)
  | glGenTextures (n : Nat)
  | glViewport (x y width height : Int)
  | glScissor (x y width height : Int)
  | glEnableVertexAttribArray (index : Nat)
  | glVertexAttribPointer (index size type : Nat) (normalized : Bool) (stride : Nat)
      (pointer : List GLfloat)
  | glUniform4fv (location : Int) (count : Nat) (value : List GLfloat)
  | glUseProgram (program : Nat)
  | glDrawArrays (mode first count : Nat)
  | ANativeWindow_fromSurface (surface : Nat)
  | ANativeWindow_getWidth (window : Nat)
  | ANativeWindow_getHeight (window : Nat)
  | ANativeWindow_release (window : Nat)
  | FindClass (name : String)
  | ThrowNew (cls : Nat) (msg : String)
  | androidLog (prio : Nat) (tag fmt : String) (args : List String)
  | glClearColor (red green blue alpha : GLfloat)
  | glClear (mask : Nat)
  | glEnable (cap : Nat)
  | eglSwapBuffers (dpy surface : Nat)
  deriving DecidableEq

/-- The external world.  Each field gives the result of one external function: its return value
or the value it leaves in its output parameter.  The first argument is the trace of all calls
issued before this one, so the answers may depend on the history in any way. -/
structure Driver where
  eglGetDisplay : List Call → Nat → Nat
  eglInitialize : List Call → Nat → Nat
  eglQueryString : List Call → Nat → Nat → Option String
  /-- Return value, the config written to `configs[0]`, and `num_config`. -/
  eglChooseConfig : List Call → Nat → List Nat → Int → Nat × Nat × Int
  eglCreateContext : List Call → Nat → Nat → Nat → List Nat → Nat
  eglCreatePbufferSurface : List Call → Nat → Nat → List Nat → Nat
  eglCreateWindowSurface : List Call → Nat → Nat → Nat → Nat
  eglGetError : List Call → Nat
  glGetString : List Call → Nat → Option String
  glCreateShader : List Call → Nat → Nat
  glGetShaderiv : List Call → Nat → Nat → Int
  glGetShaderInfoLog : List Call → Nat → Int → String
  glCreateProgram : List Call → Nat
  glGetProgramiv : List Call → Nat → Nat → Int
  glGetProgramInfoLog : List Call → Nat → Int → String
  glGetAttribLocation : List Call → Nat → String → Int
  glGetUniformLocation : List Call → Nat → String → Int
  /-- The texture name written by `glGenTextures(1, &name)`. -/
  glGenTextures : List Call → Nat
  ANativeWindow_fromSurface : List Call → Nat → Nat
  ANativeWindow_getWidth : List Call → Nat → Int
  ANativeWindow_getHeight : List Call → Nat → Int
  FindClass : List Call → String → Nat
  ThrowNew : List Call → Nat → String → Int
  /-- The address returned by `new NativeContext(...)`. -/
  newNativeContext : List Call → Nat

/-! ## The context record -/

/-- `struct NativeContext` of the source; `windowSurface` is the pair
`(ANativeWindow *, EGLSurface)`. -/
structure NativeContext where
  display : Nat
  config : Nat
  context : Nat
  windowSurface : Nat × Nat
  pbufferSurface : Nat
  program : Nat
  vPostionHandle : Int
  vColorHandle : Int
  textureId : Nat
  deriving DecidableEq

/-- The constructor `NativeContext::NativeContext`. -/
def NativeContext.new (display config context window surface pbufferSurface : Nat) :
    NativeContext :=
  { display := display, config := config, context := context,
    windowSurface := (window, surface), pbufferSurface := pbufferSurface,
    program := 0, vPostionHandle := -1, vColorHandle := -1, textureId := 0 }

/-! ## Helpers of the anonymous namespace -/

/-- `ThrowException` of the source: look the class up and throw; both steps are asserted. -/
def ThrowException (d : Driver) (t : List Call) (exceptionName msg : String) :
    Option (List Call) :=
  let exClass := d.FindClass t exceptionName
  let t1 := t ++ [Call.FindClass exceptionName]
  if exClass = 0 then none else
  let throwSuccess := d.ThrowNew t1 exClass msg
  let t2 := t1 ++ [Call.ThrowNew exClass msg]
  if throwSuccess ≠ JNI_OK then none else
  some t2

/-- `ShaderTypeString` of the source. -/
def ShaderTypeString (shaderType : Nat) : String :=
  if shaderType = GL_VERTEX_SHADER then "GL_VERTEX_SHADER"
  else if shaderType = GL_FRAGMENT_SHADER then "GL_FRAGMENT_SHADER"
  else "<Unknown shader type>"

/-- `CompileShader` of the source.  When the compile status is zero the diagnostics are
fetched and logged, `shader` is set to 0 and the final `assert(shader)` aborts.  A negative log
length makes the constructor of `std::vector<char>` throw, which ends the process as well. -/
def CompileShader (d : Driver) (t : List Call) (shaderType : Nat) (shaderSrc : String) :
    Option (Nat × List Call) :=
  let shader := d.glCreateShader t shaderType
  let t1 := t ++ [Call.glCreateShader shaderType]
  if shader = 0 then none else
  let t2 := t1 ++ [Call.glShaderSource shader shaderSrc]
  let t3 := t2 ++ [Call.glCompileShader shader]
  let compileStatus := d.glGetShaderiv t3 shader GL_COMPILE_STATUS
  let t4 := t3 ++ [Call.glGetShaderiv shader GL_COMPILE_STATUS]
  let r : Option (Nat × List Call) :=
    if compileStatus = 0 then
      let logLength := d.glGetShaderiv t4 shader GL_INFO_LOG_LENGTH
      let t5 := t4 ++ [Call.glGetShaderiv shader GL_INFO_LOG_LENGTH]
      if logLength < 0 then none else
      let logText : String := if 0 < logLength then d.glGetShaderInfoLog t5 shader logLength
        else "(unknown error)"
      let t6 := if 0 < logLength then t5 ++ [Call.glGetShaderInfoLog shader logLength] else t5
      let t7 := t6 ++ [Call.androidLog ANDROID_LOG_ERROR LOG_TAG
        "Unable to compile %s shader:\n $s." [ShaderTypeString shaderType, logText]]
      some (0, t7)
    else some (shader, t4)
  match r with
  | none => none
  | some r1 => if r1.1 = 0 then none else some r1

/-- `CreateGlProgram` of the source.  (`alloca(program)` only moves the stack pointer and is not
modelled.)  On a zero link status the diagnostics are logged and the program is deleted, and
`program` is returned all the same.  A negative log length makes the constructor of
`std::vector<char>` throw, which ends the process. -/
def CreateGlProgram (d : Driver) (t : List Call) : Option (Nat × List Call) :=
  match CompileShader d t GL_VERTEX_SHADER VERTEX_SHADER_SRC with
  | none => none
  | some (vertexShader, t1) =>
  if vertexShader = 0 then none else
  match CompileShader d t1 GL_FRAGMENT_SHADER FRAGMENT_SHARED_SRC with
  | none => none
  | some (fragmentShader, t2) =>
  if fragmentShader = 0 then none else
  let program := d.glCreateProgram t2
  let t3 := t2 ++ [Call.glCreateProgram]
  let t4 := t3 ++ [Call.glAttachShader program vertexShader]
  let t5 := t4 ++ [Call.glAttachShader program fragmentShader]
  let t6 := t5 ++ [Call.glLinkProgram program]
  let linkStatus := d.glGetProgramiv t6 program GL_LINK_STATUS
  let t7 := t6 ++ [Call.glGetProgramiv program GL_LINK_STATUS]
  if linkStatus = 0 then
    let logLength := d.glGetProgramiv t7 program GL_INFO_LOG_LENGTH
    let t8 := t7 ++ [Call.glGetProgramiv program GL_INFO_LOG_LENGTH]
    if logLength < 0 then none else
    let logText : String := if 0 < logLength then d.glGetProgramInfoLog t8 program logLength
      else "(unknown error)"
    let t9 := if 0 < logLength then t8 ++ [Call.glGetProgramInfoLog program logLength] else t8
    let t10 := t9 ++ [Call.androidLog ANDROID_LOG_ERROR LOG_TAG
      "Unable to link program:\n %s." [logText]]
    let t11 := t10 ++ [Call.glDeleteProgram program]
    some (program, t11)
  else some (program, t7)

/-- `DestroySurface` of the source. -/
def DestroySurface (nc : NativeContext) (t : List Call) : NativeContext × List Call :=
  if nc.windowSurface.1 ≠ 0 then
    let t1 := t ++ [Call.eglMakeCurrent nc.display nc.pbufferSurface nc.pbufferSurface nc.context]
    let t2 := t1 ++ [Call.eglDestroySurface nc.display nc.windowSurface.2]
    let nc1 := { nc with windowSurface := (nc.windowSurface.1, 0) }
    let t3 := t2 ++ [Call.ANativeWindow_release nc1.windowSurface.1]
    let nc2 := { nc1 with windowSurface := (0, nc1.windowSurface.2) }
    (nc2, t3)
  else (nc, t)

/-! ## The JNI entry points -/

/-- What `initContext` hands back: the `jlong` it returns, the record it allocated with `new`
(if it got that far), and the trace. -/
structure InitResult where
  handle : Nat
  record : Option NativeContext
  trace : List Call
  deriving DecidableEq

/-- `initContext` of the source.  After a failed `eglInitialize` the exception is thrown and
execution goes on (there is no `return` in that branch); after a failed `eglChooseConfig` the
exception is thrown and 0 is returned. -/
def initContext (d : Driver) (t : List Call) : Option InitResult :=
  let eglDisplay := d.eglGetDisplay t EGL_DEFAULT_DISPLAY
  let t1 := t ++ [Call.eglGetDisplay EGL_DEFAULT_DISPLAY]
  if eglDisplay = EGL_NO_DISPLAY then none else
  let initSuccess := d.eglInitialize t1 eglDisplay
  let t2 := t1 ++ [Call.eglInitialize eglDisplay]
  match (if initSuccess ≠ EGL_TRUE then
      ThrowException d t2 "java/lang/RuntimeException" "EGL Error: eglInitialize fail."
    else some t2) with
  | none => none
  | some t3 =>
  let eglVendorString := d.eglQueryString t3 eglDisplay EGL_VENDOR
  let t4 := t3 ++ [Call.eglQueryString eglDisplay EGL_VENDOR]
  let eglVersionString := d.eglQueryString t4 eglDisplay EGL_VERSION
  let t5 := t4 ++ [Call.eglQueryString eglDisplay EGL_VERSION]
  let t6 := t5 ++ [Call.androidLog ANDROID_LOG_DEBUG LOG_TAG
    "EGL Initialized [Vendor: %s,Version: %s]"
    [eglVendorString.getD "Unknown", eglVersionString.getD "Unknown"]]
  let configAttrs : List Nat :=
    [EGL_RENDERABLE_TYPE, EGL_OPENGL_ES2_BIT,
     EGL_SURFACE_TYPE, EGL_WINDOW_BIT ||| EGL_PBUFFER_BIT,
     EGL_RECORDABLE_ANDROID, EGL_TRUE,
     EGL_NONE]
  let configSize : Int := 1
  let chosen := d.eglChooseConfig t6 eglDisplay configAttrs configSize
  let chooseConfigSuccess := chosen.1
  let config := chosen.2.1
  let numConfigs := chosen.2.2
  let t7 := t6 ++ [Call.eglChooseConfig eglDisplay configAttrs configSize]
  if chooseConfigSuccess ≠ EGL_TRUE then
    match ThrowException d t7 "java/lang/IllegalArgumentException"
        "EGL Error: eglChooseConfig failed. " with
    | none => none
    | some t8 => some { handle := 0, record := none, trace := t8 }
  else
  if ¬ 0 < numConfigs then none else
  let contextAttrs : List Nat := [EGL_CONTEXT_CLIENT_VERSION, 2, EGL_NONE]
  let eglContext := d.eglCreateContext t7 eglDisplay config EGL_NO_CONTEXT contextAttrs
  let t8 := t7 ++ [Call.eglCreateContext eglDisplay config EGL_NO_CONTEXT contextAttrs]
  if eglContext = EGL_NO_CONTEXT then none else
  let pbufferAttrs : List Nat := [EGL_WIDTH, 1, EGL_HEIGHT, 1, EGL_NONE]
  let eglPbuffer := d.eglCreatePbufferSurface t8 eglDisplay config pbufferAttrs
  let t9 := t8 ++ [Call.eglCreatePbufferSurface eglDisplay config pbufferAttrs]
  if eglPbuffer = EGL_NO_DISPLAY then none else
  let t10 := t9 ++ [Call.eglMakeCurrent eglDisplay eglPbuffer eglPbuffer eglContext]
  let glVendorString := d.glGetString t10 GL_VENDOR
  let t11 := t10 ++ [Call.glGetString GL_VENDOR]
  let glVersionString := d.glGetString t11 GL_VERSION
  let t12 := t11 ++ [Call.glGetString GL_VERSION]
  let glslVersionString := d.glGetString t12 GL_SHADING_LANGUAGE_VERSION
  let t13 := t12 ++ [Call.glGetString GL_SHADING_LANGUAGE_VERSION]
  let glRendererString := d.glGetString t13 GL_RENDERER
  let t14 := t13 ++ [Call.glGetString GL_RENDERER]
  let t15 := t14 ++ [Call.androidLog ANDROID_LOG_DEBUG LOG_TAG
    "OpenGL Initialized [Vendor: %s, Version: %s, GLSL Version: %s, Renderer: %s]"
    [glVendorString.getD "Unknown", glVersionString.getD "Unknown",
     glslVersionString.getD "Unknown", glRendererString.getD "Unknown"]]
  let address := d.newNativeContext t15
  let nc0 := NativeContext.new eglDisplay config eglContext 0 0 eglPbuffer
  match CreateGlProgram d t15 with
  | none => none
  | some (program, t16) =>
  let nc1 := { nc0 with program := program }
  let nc2 := { nc1 with vPostionHandle := d.glGetAttribLocation t16 nc1.program "vPosition" }
  let t17 := t16 ++ [Call.glGetAttribLocation nc1.program "vPosition"]
  let nc3 := { nc2 with vColorHandle := d.glGetUniformLocation t17 nc2.program "vColor" }
  let t18 := t17 ++ [Call.glGetUniformLocation nc2.program "vColor"]
  let nc4 := { nc3 with textureId := d.glGenTextures t18 }
  let t19 := t18 ++ [Call.glGenTextures 1]
  some { handle := address, record := some nc4, trace := t19 }

/-- What `setWindowSurface` hands back: the `jboolean` it returns, the record and the trace. -/
structure SetResult where
  ret : Bool
  record : NativeContext
  trace : List Call
  deriving DecidableEq

/-- `setWindowSurface` of the source, on the record the handle points to.  (The two window
queries in the argument lists of `glViewport` and `glScissor` are taken in the order width,
height.) -/
def setWindowSurface (d : Driver) (nc : NativeContext) (t : List Call) (jsurface : Nat) :
    Option SetResult :=
  let nc1 := (DestroySurface nc t).1
  let t1 := (DestroySurface nc t).2
  if jsurface = 0 then some { ret := false, record := nc1, trace := t1 } else
  let nativeWindow := d.ANativeWindow_fromSurface t1 jsurface
  let t2 := t1 ++ [Call.ANativeWindow_fromSurface jsurface]
  if nativeWindow = 0 then
    let t3 := t2 ++ [Call.androidLog ANDROID_LOG_ERROR LOG_TAG
      "Failed to set window surface,: Unable to acquire native window." []]
    some { ret := false, record := nc1, trace := t3 }
  else
  let surface := d.eglCreateWindowSurface t2 nc1.display nc1.config nativeWindow
  let t3 := t2 ++ [Call.eglCreateWindowSurface nc1.display nc1.config nativeWindow]
  let eglError := d.eglGetError t3
  let t4 := t3 ++ [Call.eglGetError]
  let t5 := t4 ++ [Call.androidLog ANDROID_LOG_ERROR LOG_TAG " %s" [EGLErrorString eglError]]
  if surface = EGL_NO_DISPLAY then none else
  let nc2 := { nc1 with windowSurface := (nativeWindow, surface) }
  let t6 := t5 ++ [Call.eglMakeCurrent nc2.display surface surface nc2.context]
  let vw := d.ANativeWindow_getWidth t6 nativeWindow
  let t7 := t6 ++ [Call.ANativeWindow_getWidth nativeWindow]
  let vh := d.ANativeWindow_getHeight t7 nativeWindow
  let t8 := t7 ++ [Call.ANativeWindow_getHeight nativeWindow]
  let t9 := t8 ++ [Call.glViewport 0 0 vw vh]
  let sw := d.ANativeWindow_getWidth t9 nativeWindow
  let t10 := t9 ++ [Call.ANativeWindow_getWidth nativeWindow]
  let sh := d.ANativeWindow_getHeight t10 nativeWindow
  let t11 := t10 ++ [Call.ANativeWindow_getHeight nativeWindow]
  let t12 := t11 ++ [Call.glScissor 0 0 sw sh]
  some { ret := true, record := nc2, trace := t12 }

/-- `getTextName` of the source: the texture name, converted from `GLuint` to `jint`. -/
def getTextName (nc : NativeContext) : Int :=
  let v : Int := (nc.textureId % 4294967296 : Nat)
  if v < 2147483648 then v else v - 4294967296

/-- The array `vertices` of `renderTexture`: 0.5f is 0x3F000000, -0.5f is 0xBF000000. -/
def renderVertices : List GLfloat :=
  [0x3F000000, 0x3F000000,
   0xBF000000, 0xBF000000,
   0x3F000000, 0x3F000000]

/-- The array `colors` of `renderTexture`: 1.0f is 0x3F800000. -/
def renderColors : List GLfloat := [0x3F800000, 0, 0, 0x3F800000]

/-- `renderTexture` of the source: it returns `true` and does not touch the record. -/
def renderTexture (nc : NativeContext) (t : List Call) : Bool × List Call :=
  let t1 := t ++ [Call.glEnableVertexAttribArray (toGLuint nc.vPostionHandle)]
  let t2 := t1 ++ [Call.glVertexAttribPointer (toGLuint nc.vPostionHandle) 3 GL_FLOAT false
    (3 * 4) renderVertices]
  let t3 := t2 ++ [Call.glUniform4fv nc.vColorHandle 1 renderColors]
  let t4 := t3 ++ [Call.glUseProgram nc.program]
  let t5 := t4 ++ [Call.glDrawArrays GL_TRIANGLES 0 3]
  (true, t5)

/-- `closeContext` of the source: the calls it issues; the record is freed at the end. -/
def closeContext (nc : NativeContext) (t : List Call) : List Call :=
  let r : NativeContext × List Call :=
    if nc.program ≠ 0 then
      ({ nc with program := 0 }, t ++ [Call.glDeleteProgram nc.program])
    else (nc, t)
  let nc1 := r.1
  let t1 := r.2
  let nc2 := (DestroySurface nc1 t1).1
  let t2 := (DestroySurface nc1 t1).2
  let t3 := t2 ++ [Call.eglDestroySurface nc2.display nc2.pbufferSurface]
  let t4 := t3 ++ [Call.eglMakeCurrent nc2.display EGL_NO_SURFACE EGL_NO_SURFACE EGL_NO_CONTEXT]
  let t5 := t4 ++ [Call.eglDestroyContext nc2.display nc2.context]
  let t6 := t5 ++ [Call.eglTerminate nc2.display]
  t6

/-! ## The one-shot renderer of `opengl_triangle_render.cpp`

The file has its own copies of `ThrowException`, `ShaderTypeString`, `CompileShader` and
`CreateGlProgram` in an anonymous namespace.  The first two are the same text as in
`opengl_renderer.cpp` and the definitions above are used for them; the last two log with this
file's `LOG_TAG` and are embedded again. -/

/-- The global `LOG_TAG` of `opengl_triangle_render.cpp`. -/
def Triangle.LOG_TAG : String := "OpenGLTriangleRenderer"

/-- `CompileShader` of `opengl_triangle_render.cpp`. -/
def Triangle.CompileShader (d : Driver) (t : List Call) (shaderType : Nat)
    (shaderSrc : String) : Option (Nat × List Call) :=
  let shader := d.glCreateShader t shaderType
  let t1 := t ++ [Call.glCreateShader shaderType]
  if shader = 0 then none else
  let t2 := t1 ++ [Call.glShaderSource shader shaderSrc]
  let t3 := t2 ++ [Call.glCompileShader shader]
  let compileStatus := d.glGetShaderiv t3 shader GL_COMPILE_STATUS
  let t4 := t3 ++ [Call.glGetShaderiv shader GL_COMPILE_STATUS]
  let r : Option (Nat × List Call) :=
    if compileStatus = 0 then
      let logLength := d.glGetShaderiv t4 shader GL_INFO_LOG_LENGTH
      let t5 := t4 ++ [Call.glGetShaderiv shader GL_INFO_LOG_LENGTH]
      if logLength < 0 then none else
      let logText : String := if 0 < logLength then d.glGetShaderInfoLog t5 shader logLength
        else "(unknown error)"
      let t6 := if 0 < logLength then t5 ++ [Call.glGetShaderInfoLog shader logLength] else t5
      let t7 := t6 ++ [Call.androidLog ANDROID_LOG_ERROR Triangle.LOG_TAG
        "Unable to compile %s shader:\n $s." [ShaderTypeString shaderType, logText]]
      some (0, t7)
    else some (shader, t4)
  match r with
  | none => none
  | some r1 => if r1.1 = 0 then none else some r1

/-- `CreateGlProgram` of `opengl_triangle_render.cpp`. -/
def Triangle.CreateGlProgram (d : Driver) (t : List Call) : Option (Nat × List Call) :=
  match Triangle.CompileShader d t GL_VERTEX_SHADER VERTEX_SHADER_SRC with
  | none => none
  | some (vertexShader, t1) =>
  if vertexShader = 0 then none else
  match Triangle.CompileShader d t1 GL_FRAGMENT_SHADER FRAGMENT_SHARED_SRC with
  | none => none
  | some (fragmentShader, t2) =>
  if fragmentShader = 0 then none else
  let program := d.glCreateProgram t2
  let t3 := t2 ++ [Call.glCreateProgram]
  let t4 := t3 ++ [Call.glAttachShader program vertexShader]
  let t5 := t4 ++ [Call.glAttachShader program fragmentShader]
  let t6 := t5 ++ [Call.glLinkProgram program]
  let linkStatus := d.glGetProgramiv t6 program GL_LINK_STATUS
  let t7 := t6 ++ [Call.glGetProgramiv program GL_LINK_STATUS]
  if linkStatus = 0 then
    let logLength := d.glGetProgramiv t7 program GL_INFO_LOG_LENGTH
    let t8 := t7 ++ [Call.glGetProgramiv program GL_INFO_LOG_LENGTH]
    if logLength < 0 then none else
    let logText : String := if 0 < logLength then d.glGetProgramInfoLog t8 program logLength
      else "(unknown error)"
    let t9 := if 0 < logLength then t8 ++ [Call.glGetProgramInfoLog program logLength] else t8
    let t10 := t9 ++ [Call.androidLog ANDROID_LOG_ERROR Triangle.LOG_TAG
      "Unable to link program:\n %s." [logText]]
    let t11 := t10 ++ [Call.glDeleteProgram program]
    some (program, t11)
  else some (program, t7)

/-- The array `vertices` of `drawTriangle`: 0.5f is 0x3F000000, -0.5f is 0xBF000000, 0.0f
is 0. -/
def Triangle.vertices : List GLfloat :=
  [0x3F000000, 0x3F000000, 0,
   0xBF000000, 0xBF000000, 0,
   0x3F000000, 0xBF000000, 0]

/-- The array `colors` of `drawTriangle`. -/
def Triangle.colors : List GLfloat := [0x3F800000, 0, 0, 0x3F800000]

/-- `drawTriangle` of `opengl_triangle_render.cpp`: the `jlong` it returns and the trace.  (The
window queries in the argument lists of `glViewport` and `glScissor` are taken in the order
width, height; `/` on `int32_t` truncates.) -/
def drawTriangle (d : Driver) (t : List Call) (jsurface : Nat) : Option (Nat × List Call) :=
  let nativeWindow := d.ANativeWindow_fromSurface t jsurface
  let t1 := t ++ [Call.ANativeWindow_fromSurface jsurface]
  let eglDisplay := d.eglGetDisplay t1 EGL_DEFAULT_DISPLAY
  let t2 := t1 ++ [Call.eglGetDisplay EGL_DEFAULT_DISPLAY]
  let configAttrs : List Nat :=
    [EGL_RED_SIZE, 8,
     EGL_GREEN_SIZE, 8,
     EGL_BLUE_SIZE, 8,
     EGL_SURFACE_TYPE, EGL_WINDOW_BIT,
     EGL_NONE]
  let chosen := d.eglChooseConfig t2 eglDisplay configAttrs 1
  let config := chosen.2.1
  let configNum := chosen.2.2
  let t3 := t2 ++ [Call.eglChooseConfig eglDisplay configAttrs 1]
  if EGL_TRUE ≠ chosen.1 then
    match ThrowException d t3 "java/lang/IllegalArgumentException"
        "EGL Error: eglChooseConfig failed. " with
    | none => none
    | some t4 => some (0, t4)
  else
  if ¬ 0 < configNum then none else
  let eglSurface := d.eglCreateWindowSurface t3 eglDisplay config nativeWindow
  let t4 := t3 ++ [Call.eglCreateWindowSurface eglDisplay config nativeWindow]
  let ctxAttr : List Nat := [EGL_CONTEXT_CLIENT_VERSION, 2, EGL_NONE]
  let eglContext := d.eglCreateContext t4 eglDisplay config EGL_NO_CONTEXT ctxAttr
  let t5 := t4 ++ [Call.eglCreateContext eglDisplay config EGL_NO_CONTEXT ctxAttr]
  let t6 := t5 ++ [Call.eglMakeCurrent eglDisplay eglSurface eglSurface eglContext]
  let t7 := t6 ++ [Call.glClearColor 0x3F800000 0x3F800000 0x3F800000 0x3F800000]
  let t8 := t7 ++
    [Call.glClear (GL_COLOR_BUFFER_BIT ||| GL_DEPTH_BUFFER_BIT ||| GL_STENCIL_BUFFER_BIT)]
  let vw := d.ANativeWindow_getWidth t8 nativeWindow
  let t9 := t8 ++ [Call.ANativeWindow_getWidth nativeWindow]
  let vh := d.ANativeWindow_getHeight t9 nativeWindow
  let t10 := t9 ++ [Call.ANativeWindow_getHeight nativeWindow]
  let t11 := t10 ++ [Call.glViewport 0 0 (vw.tdiv 2) (vh.tdiv 2)]
  let t12 := t11 ++ [Call.glEnable GL_SCISSOR_TEST]
  let sw := d.ANativeWindow_getWidth t12 nativeWindow
  let t13 := t12 ++ [Call.ANativeWindow_getWidth nativeWindow]
  let sh := d.ANativeWindow_getHeight t13 nativeWindow
  let t14 := t13 ++ [Call.ANativeWindow_getHeight nativeWindow]
  let t15 := t14 ++ [Call.glScissor 0 0 (sw.tdiv 4) (sh.tdiv 4)]
  match Triangle.CreateGlProgram d t15 with
  | none => none
  | some (created, t16) =>
  let program : Int := toGLint created
  let t17 := t16 ++ [Call.glUseProgram (toGLuint program)]
  let vPositionHandle := d.glGetAttribLocation t17 (toGLuint program) "vPosition"
  let t18 := t17 ++ [Call.glGetAttribLocation (toGLuint program) "vPosition"]
  let vColorHandle := d.glGetUniformLocation t18 (toGLuint program) "vColor"
  let t19 := t18 ++ [Call.glGetUniformLocation (toGLuint program) "vColor"]
  let t20 := t19 ++ [Call.glEnableVertexAttribArray (toGLuint vPositionHandle)]
  let t21 := t20 ++ [Call.glVertexAttribPointer (toGLuint vPositionHandle) 3 GL_FLOAT false 12
    Triangle.vertices]
  let t22 := t21 ++ [Call.glUniform4fv vColorHandle 1 Triangle.colors]
  let t23 := t22 ++ [Call.glDrawArrays GL_LINE_LOOP 0 3]
  let t24 := t23 ++ [Call.eglSwapBuffers eglDisplay eglSurface]
  some (0, t24)

/-! ## Sequences of calls made by the host -/

/-- A call the host makes on a live handle between `initContext` and `closeContext`. -/
inductive Op where
  | setWindowSurface (jsurface : Nat)
  | renderTexture
  deriving DecidableEq

/-- Run one host call on the record. -/
def step (d : Driver) (s : NativeContext × List Call) : Op → Option (NativeContext × List Call)
  | Op.setWindowSurface jsurface =>
    (setWindowSurface d s.1 s.2 jsurface).map fun r => (r.record, r.trace)
  | Op.renderTexture => some (s.1, (renderTexture s.1 s.2).2)

/-- Run a sequence of host calls, oldest first. -/
def run (d : Driver) (s : NativeContext × List Call) : List Op → Option (NativeContext × List Call)
  | [] => some s
  | op :: ops => (step d s op).bind fun s1 => run d s1 ops

/-- The states of the record reachable from `initContext` (started after any earlier calls
`t0`) by `setWindowSurface` and `renderTexture` calls. -/
def Reachable (d : Driver) (s : NativeContext × List Call) : Prop :=
  ∃ t0 r nc0 ops,
    initContext d t0 = some r ∧ r.record = some nc0 ∧ run d (nc0, r.trace) ops = some s

/-- The data-model invariant: the window slot is null exactly when the surface slot is. -/
def PairInvariant (nc : NativeContext) : Prop :=
  nc.windowSurface.1 ≠ 0 ↔ nc.windowSurface.2 ≠ 0

instance (nc : NativeContext) : Decidable (PairInvariant nc) := by
  unfold PairInvariant; infer_instance

/-- The current binding after one more call: `eglMakeCurrent` replaces it, any other call
leaves it. -/
def currentAfter (cur : Option (Nat × Nat × Nat)) (c : Call) : Option (Nat × Nat × Nat) :=
  match c with
  | Call.eglMakeCurrent _ draw read ctx => some (draw, read, ctx)
  | _ => cur

/-- The arguments `(draw, read, ctx)` of the most recent `eglMakeCurrent` of a trace. -/
def lastMakeCurrent (t : List Call) : Option (Nat × Nat × Nat) :=
  t.foldl currentAfter none

/-- The drawable the record says is current: the window surface when a window is attached,
the pbuffer surface when none is. -/
def expectedCurrent (nc : NativeContext) : Nat :=
  if nc.windowSurface.1 ≠ 0 then nc.windowSurface.2 else nc.pbufferSurface

/-! ### Client-side vertex arrays

What a draw call reads from a client-side array, after the GLES2 specification: with
`glVertexAttribPointer(index, size, GL_FLOAT, normalized, stride, pointer)` in force,
`glDrawArrays(mode, first, count)` reads for each vertex `v` of `first .. first + count - 1`
the `size` floats that start `v * stride` bytes into the array (`stride` 0 meaning tightly
packed). -/

/-- The size of a `GLfloat` in bytes. -/
def sizeofGLfloat : Nat := 4

/-- One draw call together with the attribute pointer in force when it is issued. -/
structure DrawRead where
  size : Nat
  type : Nat
  stride : Nat
  first : Nat
  count : Nat
  array : List GLfloat
  deriving DecidableEq

/-- The byte distance between consecutive vertices. -/
def DrawRead.vertexStride (r : DrawRead) : Nat :=
  if r.stride = 0 then r.size * sizeofGLfloat else r.stride

/-- The positions in the array, counted in floats, that the draw reads, vertex by vertex. -/
def DrawRead.indices (r : DrawRead) : List Nat :=
  (List.range r.count).flatMap fun v =>
    (List.range r.size).map fun c => ((r.first + v) * r.vertexStride + c * sizeofGLfloat) / sizeofGLfloat

/-- The number of floats the array must hold for the draw: one more than the highest position
read, 0 when nothing is read. -/
def DrawRead.required (r : DrawRead) : Nat :=
  (r.indices.map fun i => i + 1).foldl max 0

/-- The positions read that lie outside the array. -/
def DrawRead.outOfBounds (r : DrawRead) : List Nat :=
  r.indices.filter fun i => decide (r.array.length ≤ i)

/-- The attribute pointer in force and the draws seen so far. -/
structure DrawState where
  pointer : Option (Nat × Nat × Nat × List GLfloat)
  reads : List DrawRead
  deriving DecidableEq

/-- The effect of one call: `glVertexAttribPointer` replaces the pointer in force,
`glDrawArrays` records a draw with it. -/
def drawStep (s : DrawState) (c : Call) : DrawState :=
  match c with
  | Call.glVertexAttribPointer _ size type _ stride pointer =>
    { s with pointer := some (size, type, stride, pointer) }
  | Call.glDrawArrays _ first count =>
    match s.pointer with
    | some (size, type, stride, pointer) =>
      { s with reads := s.reads ++ [⟨size, type, stride, first, count, pointer⟩] }
    | none => s
  | _ => s

/-- The draw state after a trace. -/
def drawState (t : List Call) : DrawState := t.foldl drawStep ⟨none, []⟩

/-- The draws of a trace, each with the attribute pointer in force. -/
def drawReads (t : List Call) : List DrawRead := (drawState t).reads

/-- The native windows released in a trace, in order. -/
def releasedWindows (t : List Call) : List Nat :=
  t.filterMap fun c =>
    match c with
    | Call.ANativeWindow_release w => some w
    | _ => none

/-- The surfaces destroyed in a trace, in order. -/
def destroyedSurfaces (t : List Call) : List Nat :=
  t.filterMap fun c =>
    match c with
    | Call.eglDestroySurface _ s => some s
    | _ => none

/-- The drawables passed to `ANativeWindow_fromSurface` in a trace, in order. -/
def resolvedDrawables (t : List Call) : List Nat :=
  t.filterMap fun c =>
    match c with
    | Call.ANativeWindow_fromSurface j => some j
    | _ => none

/-- The native window the driver returns when `setWindowSurface` resolves `jsurface`. -/
def resolvedWindow (d : Driver) (nc : NativeContext) (t : List Call) (jsurface : Nat) : Nat :=
  d.ANativeWindow_fromSurface (DestroySurface nc t).2 jsurface

/-- The surface the driver returns when `setWindowSurface` creates the window surface. -/
def createdSurface (d : Driver) (nc : NativeContext) (t : List Call) (jsurface : Nat) : Nat :=
  d.eglCreateWindowSurface ((DestroySurface nc t).2 ++ [Call.ANativeWindow_fromSurface jsurface])
    nc.display nc.config (resolvedWindow d nc t jsurface)

/-- A trace extension that leaves the four observations unchanged. -/
def SameObs (t t1 : List Call) : Prop :=
  releasedWindows t1 = releasedWindows t ∧ destroyedSurfaces t1 = destroyedSurfaces t ∧
    resolvedDrawables t1 = resolvedDrawables t ∧ lastMakeCurrent t1 = lastMakeCurrent t

/-- The kinds of resource the retained renderer owns. -/
inductive Resource where
  | display
  | context
  | pbufferSurface
  | program
  | textureName
  | windowSurface
  | nativeWindow
  deriving DecidableEq

/-- The resources acquired in a trace, in order of acquisition: the display connection by
`eglInitialize`, the context by `eglCreateContext`, and so on. -/
def acquired (t : List Call) : List Resource :=
  t.filterMap fun c =>
    match c with
    | Call.eglInitialize _ => some Resource.display
    | Call.eglCreateContext _ _ _ _ => some Resource.context
    | Call.eglCreatePbufferSurface _ _ _ => some Resource.pbufferSurface
    | Call.glCreateProgram => some Resource.program
    | Call.glGenTextures _ => some Resource.textureName
    | Call.ANativeWindow_fromSurface _ => some Resource.nativeWindow
    | Call.eglCreateWindowSurface _ _ _ => some Resource.windowSurface
    | _ => none

/-- The resources of the record `nc` released in a trace, in order of release.  A destroyed
surface is the pbuffer when its handle is the record's pbuffer, otherwise a window surface. -/
def released (nc : NativeContext) (t : List Call) : List Resource :=
  t.filterMap fun c =>
    match c with
    | Call.eglTerminate _ => some Resource.display
    | Call.eglDestroyContext _ _ => some Resource.context
    | Call.eglDestroySurface _ s =>
      if s = nc.pbufferSurface then some Resource.pbufferSurface else some Resource.windowSurface
    | Call.glDeleteProgram _ => some Resource.program
    | Call.glDeleteTextures _ => some Resource.textureName
    | Call.ANativeWindow_release _ => some Resource.nativeWindow
    | _ => none

/-- The calls `closeContext` issues for the GPU program. -/
def closeProgramCalls (nc : NativeContext) : List Call :=
  if nc.program ≠ 0 then [Call.glDeleteProgram nc.program] else []

/-- The calls `closeContext` issues for a surviving attach. -/
def closeWindowCalls (nc : NativeContext) : List Call :=
  if nc.windowSurface.1 ≠ 0 then
    [Call.eglMakeCurrent nc.display nc.pbufferSurface nc.pbufferSurface nc.context,
     Call.eglDestroySurface nc.display nc.windowSurface.2,
     Call.ANativeWindow_release nc.windowSurface.1]
  else []

/-- The calls `closeContext` issues for the pbuffer, the context and the display. -/
def closeDisplayCalls (nc : NativeContext) : List Call :=
  [Call.eglDestroySurface nc.display nc.pbufferSurface,
   Call.eglMakeCurrent nc.display EGL_NO_SURFACE EGL_NO_SURFACE EGL_NO_CONTEXT,
   Call.eglDestroyContext nc.display nc.context,
   Call.eglTerminate nc.display]

/-! ## Drivers used at concrete inputs -/

/-- A driver in which every call succeeds with fixed handles: display 1, config 2, context 3,
pbuffer 4, shaders 5, program 6, texture 7; the window of drawable `j` is `100 + j` and its
surface `200 + j`. -/
def okDriver : Driver :=
  { eglGetDisplay := fun _ _ => 1
    eglInitialize := fun _ _ => EGL_TRUE
    eglQueryString := fun _ _ _ => none
    eglChooseConfig := fun _ _ _ _ => (EGL_TRUE, 2, 1)
    eglCreateContext := fun _ _ _ _ _ => 3
    eglCreatePbufferSurface := fun _ _ _ _ => 4
    eglCreateWindowSurface := fun _ _ _ w => 100 + w
    eglGetError := fun _ => EGL_SUCCESS
    glGetString := fun _ _ => none
    glCreateShader := fun _ _ => 5
    glGetShaderiv := fun _ _ _ => 1
    glGetShaderInfoLog := fun _ _ _ => ""
    glCreateProgram := fun _ => 6
    glGetProgramiv := fun _ _ _ => 1
    glGetProgramInfoLog := fun _ _ _ => ""
    glGetAttribLocation := fun _ _ _ => 0
    glGetUniformLocation := fun _ _ _ => 0
    glGenTextures := fun _ => 7
    ANativeWindow_fromSurface := fun _ j => 100 + j
    ANativeWindow_getWidth := fun _ _ => 640
    ANativeWindow_getHeight := fun _ _ => 480
    FindClass := fun _ _ => 8
    ThrowNew := fun _ _ _ => JNI_OK
    newNativeContext := fun _ => 4096 }

/-- The record `initContext` builds with `okDriver`. -/
def okRecord : NativeContext :=
  { display := 1, config := 2, context := 3, windowSurface := (0, 0), pbufferSurface := 4,
    program := 6, vPostionHandle := 0, vColorHandle := 0, textureId := 7 }

/-- The trace `initContext` leaves with `okDriver`, started on the empty trace. -/
def okTrace : List Call := ((initContext okDriver []).map fun r => r.trace).getD []

/-- The record of `okDriver` with drawable `j` attached. -/
def okAttached (j : Nat) : NativeContext :=
  { okRecord with windowSurface := (100 + j, 200 + j) }

/-- The calls a successful attach of drawable `j` issues with `okDriver`, after the detach. -/
def okAttachCalls (j : Nat) : List Call :=
  [Call.ANativeWindow_fromSurface j,
   Call.eglCreateWindowSurface 1 2 (100 + j),
   Call.eglGetError,
   Call.androidLog ANDROID_LOG_ERROR LOG_TAG " %s" ["EGL_SUCCESS"],
   Call.eglMakeCurrent 1 (200 + j) (200 + j) 3,
   Call.ANativeWindow_getWidth (100 + j),
   Call.ANativeWindow_getHeight (100 + j),
   Call.glViewport 0 0 640 480,
   Call.ANativeWindow_getWidth (100 + j),
   Call.ANativeWindow_getHeight (100 + j),
   Call.glScissor 0 0 640 480]

/-- The calls a detach of drawable `j` issues on the record of `okDriver`. -/
def okDetachCalls (j : Nat) : List Call :=
  [Call.eglMakeCurrent 1 4 4 3, Call.eglDestroySurface 1 (200 + j),
   Call.ANativeWindow_release (100 + j)]

/-- The trace `drawTriangle` leaves with `okDriver` for drawable 9, started on the empty
trace. -/
def okTriangleTrace : List Call := ((drawTriangle okDriver [] 9).map fun r => r.2).getD []

/-- As `okDriver`, but `eglInitialize` fails (returns `EGL_FALSE`). -/
def initFailDriver : Driver :=
  { okDriver with eglInitialize := fun _ _ => 0 }

/-- As `okDriver`, but `eglChooseConfig` fails (returns `EGL_FALSE`). -/
def chooseFailDriver : Driver :=
  { okDriver with eglChooseConfig := fun _ _ _ _ => (0, 0, 0) }

/-- As `okDriver`, but the program does not link: link status 0, empty info log. -/
def linkFailDriver : Driver :=
  { okDriver with glGetProgramiv := fun _ _ _ => 0 }

/-! ## Theorems: the error classifier -/

theorem hexCharValue_hexDigitChar (d : Nat) (h : d < 16) : hexCharValue (hexDigitChar d) = d := by
  interval_cases d <;> decide

theorem hexDigitChar_mem (d : Nat) (h : d < 16) : hexDigitChar d ∈ hexChars := by
  interval_cases d <;> decide

theorem hexValue_append_singleton (ds : List Char) (c : Char) :
    hexValue (ds ++ [c]) = 16 * hexValue ds + hexCharValue c := by
  simp [hexValue, List.foldl_append]

theorem hexValue_zeros (k : Nat) (ds : List Char) :
    hexValue (List.replicate k '0' ++ ds) = hexValue ds := by
  induction k with
  | zero => simp
  | succ k ih =>
    have h0 : hexCharValue '0' = 0 := by decide
    simp only [hexValue, List.replicate_succ, List.cons_append, List.foldl_cons] at ih ⊢
    simpa [h0] using ih

/-- With enough fuel the digit loop produces the shortest hexadecimal numeral of `n`. -/
theorem hexDigitsAux_spec (fuel : Nat) : ∀ (n : Nat) (acc : List Char), 0 < fuel → n < 16 ^ fuel →
    ∃ ds : List Char, hexDigitsAux fuel n acc = ds ++ acc ∧ hexValue ds = n ∧
      (∀ c ∈ ds, c ∈ hexChars) ∧ 1 ≤ ds.length ∧ n < 16 ^ ds.length ∧
      (1 < ds.length → 16 ^ (ds.length - 1) ≤ n) := by
  induction fuel with
  | zero => intro n acc h; omega
  | succ fuel ih =>
    intro n acc _ hn
    by_cases h16 : n < 16
    · refine ⟨[hexDigitChar n], ?_, ?_, ?_, ?_, ?_, ?_⟩
      · simp [hexDigitsAux, h16]
      · simp [hexValue, hexCharValue_hexDigitChar n h16]
      · intro c hc
        simp only [List.mem_singleton] at hc
        subst hc
        exact hexDigitChar_mem n h16
      · simp
      · simpa using h16
      · simp
    · have hfuel : 0 < fuel := by
        rcases Nat.eq_zero_or_pos fuel with h0 | h0
        · subst h0; simp at hn; omega
        · exact h0
      have hdiv : n / 16 < 16 ^ fuel := by
        rw [Nat.div_lt_iff_lt_mul (by norm_num)]
        rw [pow_succ] at hn
        exact hn
      obtain ⟨ds, hds, hval, hmem, hlen, hub, hlb⟩ :=
        ih (n / 16) (hexDigitChar (n % 16) :: acc) hfuel hdiv
      have hmod : n % 16 < 16 := Nat.mod_lt _ (by norm_num)
      refine ⟨ds ++ [hexDigitChar (n % 16)], ?_, ?_, ?_, ?_, ?_, ?_⟩
      · simp [hexDigitsAux, h16, hds]
      · rw [hexValue_append_singleton, hval, hexCharValue_hexDigitChar _ hmod]
        omega
      · intro c hc
        rcases List.mem_append.1 hc with hc | hc
        · exact hmem c hc
        · simp only [List.mem_singleton] at hc
          subst hc
          exact hexDigitChar_mem _ hmod
      · simp
      · simp only [List.length_append, List.length_singleton, pow_succ]
        omega
      · intro _
        simp only [List.length_append, List.length_singleton, Nat.add_sub_cancel]
        rcases Nat.lt_or_ge 1 ds.length with h1 | h1
        · have := hlb h1
          have hp : 16 ^ ds.length = 16 ^ (ds.length - 1) * 16 := by
            rw [← pow_succ]; congr 1; omega
          omega
        · have h1 : ds.length = 1 := by omega
          rw [h1]; omega

theorem hexDigits_spec (n : Nat) :
    hexValue (hexDigits n) = n ∧ (∀ c ∈ hexDigits n, c ∈ hexChars) ∧ 1 ≤ (hexDigits n).length ∧
      n < 16 ^ (hexDigits n).length ∧
      (1 < (hexDigits n).length → 16 ^ ((hexDigits n).length - 1) ≤ n) := by
  have hlt : n < 16 ^ (n + 1) := by
    calc n < n + 1 := Nat.lt_succ_self n
      _ < 16 ^ (n + 1) := Nat.lt_pow_self (by norm_num) _
  obtain ⟨ds, hds, h⟩ := hexDigitsAux_spec (n + 1) n [] (Nat.succ_pos n) hlt
  have : hexDigits n = ds := by simp [hexDigits, hds]
  rw [this]
  exact h

theorem hexDigits_length_le (n k : Nat) (hk : 1 ≤ k) (h : n < 16 ^ k) :
    (hexDigits n).length ≤ k := by
  obtain ⟨_, _, _, _, hlb⟩ := hexDigits_spec n
  by_contra hcon
  have h1 : 1 < (hexDigits n).length := by omega
  have h2 := hlb h1
  have h3 : 16 ^ k ≤ 16 ^ ((hexDigits n).length - 1) :=
    Nat.pow_le_pow_right (by norm_num) (by omega)
  omega

theorem hexDigits_length_gt (n k : Nat) (h : 16 ^ k ≤ n) : k < (hexDigits n).length := by
  obtain ⟨_, _, _, hub, _⟩ := hexDigits_spec n
  by_contra hcon
  have h3 : 16 ^ (hexDigits n).length ≤ 16 ^ k :=
    Nat.pow_le_pow_right (by norm_num) (by omega)
  omega

theorem GLErrorString_unknown (c : Nat) (h : c ∉ GLRecognized) :
    GLErrorString c = "<Unknown GL Error 0x" ++ String.mk (hexField c) ++ ">" := by
  simp only [GLRecognized, List.mem_cons, List.mem_singleton, List.not_mem_nil, not_or,
    or_false] at h
  obtain ⟨h1, h2, h3, h4, h5, h6, h7, h8⟩ := h
  simp [GLErrorString, h1, h2, h3, h4, h5, h6, h7, h8]

theorem EGLErrorString_unknown (c : Nat) (h : c ∉ EGLRecognized) :
    EGLErrorString c = "<Unknown EGL Error 0x" ++ String.mk (hexField c) ++ ">" := by
  simp only [EGLRecognized, List.mem_cons, List.mem_singleton, List.not_mem_nil, not_or,
    or_false] at h
  obtain ⟨h1, h2, h3, h4, h5, h6, h7, h8, h9, h10, h11, h12, h13, h14, h15⟩ := h
  simp [EGLErrorString, h1, h2, h3, h4, h5, h6, h7, h8, h9, h10, h11, h12, h13, h14, h15]

/-- C1: every recognized code is mapped to exactly its canonical symbolic name: the eight GL
codes 0x0000 and 0x0500..0x0506 by `GLErrorString`, the fifteen EGL codes 0x3000..0x300E by
`EGLErrorString`. -/
theorem errorString_recognized :
    GLErrorString 0x0000 = "GL_NO_ERROR" ∧
    GLErrorString 0x0500 = "GL_INVALID_ENUM" ∧
    GLErrorString 0x0501 = "GL_INVALID_VALUE" ∧
    GLErrorString 0x0502 = "GL_INVALID_OPERATION" ∧
    GLErrorString 0x0503 = "GL_STACK_OVERFLOW" ∧
    GLErrorString 0x0504 = "GL_STACK_UNDERFLOW" ∧
    GLErrorString 0x0505 = "GL_OUT_OF_MEMORY" ∧
    GLErrorString 0x0506 = "GL_INVALID_FRAMEBUFFER_OPERATION" ∧
    EGLErrorString 0x3000 = "EGL_SUCCESS" ∧
    EGLErrorString 0x3001 = "EGL_NOT_INITIALIZED" ∧
    EGLErrorString 0x3002 = "EGL_BAD_ACCESS" ∧
    EGLErrorString 0x3003 = "EGL_BAD_ALLOC" ∧
    EGLErrorString 0x3004 = "EGL_BAD_ATTRIBUTE" ∧
    EGLErrorString 0x3005 = "EGL_BAD_CONFIG" ∧
    EGLErrorString 0x3006 = "EGL_BAD_CONTEXT" ∧
    EGLErrorString 0x3007 = "EGL_BAD_CURRENT_SURFACE" ∧
    EGLErrorString 0x3008 = "EGL_BAD_DISPLAY" ∧
    EGLErrorString 0x3009 = "EGL_BAD_MATCH" ∧
    EGLErrorString 0x300A = "EGL_BAD_NATIVE_PIXMAP" ∧
    EGLErrorString 0x300B = "EGL_BAD_NATIVE_WINDOW" ∧
    EGLErrorString 0x300C = "EGL_BAD_PARAMETER" ∧
    EGLErrorString 0x300D = "EGL_BAD_SURFACE" ∧
    EGLErrorString 0x300E = "EGL_CONTEXT_LOST" ∧
    GLRecognized = [0x0000, 0x0500, 0x0501, 0x0502, 0x0503, 0x0504, 0x0505, 0x0506] ∧
    EGLRecognized = [0x3000, 0x3001, 0x3002, 0x3003, 0x3004, 0x3006, 0x3005, 0x3007, 0x3008,
      0x300D, 0x3009, 0x300C, 0x300A, 0x300B, 0x300E] := by
  decide

/-- C2, as stated, fails: 0x12345 is an unrecognized 32-bit code, and the text `GLErrorString`
and `EGLErrorString` put between `0x` and `>` is not four characters long for it (the strings
are `<Unknown GL Error 0x12345>` and `<Unknown EGL Error 0x12345>`). -/
theorem errorString_unknown_not_four_digits :
    0x12345 < 2 ^ 32 ∧ 0x12345 ∉ GLRecognized ∧ 0x12345 ∉ EGLRecognized ∧
    GLErrorString 0x12345 = "<Unknown GL Error 0x12345>" ∧
    EGLErrorString 0x12345 = "<Unknown EGL Error 0x12345>" ∧
    (¬ ∃ h : String, h.length = 4 ∧
      GLErrorString 0x12345 = "<Unknown GL Error 0x" ++ h ++ ">") ∧
    (¬ ∃ h : String, h.length = 4 ∧
      EGLErrorString 0x12345 = "<Unknown EGL Error 0x" ++ h ++ ">") := by
  refine ⟨by decide, by decide, by decide, by decide, by decide, ?_, ?_⟩
  · rintro ⟨h, hlen, heq⟩
    have h1 : (GLErrorString 0x12345).length = 26 := by decide
    have h2 := congrArg String.length heq
    rw [h1, String.length_append, String.length_append, hlen] at h2
    revert h2
    decide
  · rintro ⟨h, hlen, heq⟩
    have h1 : (EGLErrorString 0x12345).length = 27 := by decide
    have h2 := congrArg String.length heq
    rw [h1, String.length_append, String.length_append, hlen] at h2
    revert h2
    decide

/-- C2, amended: for an unrecognized 32-bit code `c` the two classifiers return
`<Unknown GL Error 0x` h `>` and `<Unknown EGL Error 0x` h `>`, where h is the lowercase
hexadecimal numeral of `c` padded on the left with zeros to at least four digits: h consists of
lowercase hexadecimal digits, its value is `c`, it has exactly four digits when `c < 0x10000`,
and for `c ≥ 0x10000` it is the unpadded numeral, of five to eight digits. -/
theorem errorString_unknown (c : Nat) (h32 : c < 2 ^ 32) :
    (c ∉ GLRecognized →
      GLErrorString c = "<Unknown GL Error 0x" ++ String.mk (hexField c) ++ ">") ∧
    (c ∉ EGLRecognized →
      EGLErrorString c = "<Unknown EGL Error 0x" ++ String.mk (hexField c) ++ ">") ∧
    hexValue (hexField c) = c ∧
    (∀ ch ∈ hexField c, ch ∈ hexChars) ∧
    (c < 0x10000 → (hexField c).length = 4) ∧
    (0x10000 ≤ c → hexField c = hexDigits c ∧ 5 ≤ (hexField c).length ∧
      (hexField c).length ≤ 8) := by
  obtain ⟨hval, hmem, hlen, _, _⟩ := hexDigits_spec c
  refine ⟨GLErrorString_unknown c, EGLErrorString_unknown c, ?_, ?_, ?_, ?_⟩
  · simp [hexField, padRight, hexValue_zeros, hval]
  · intro ch hch
    simp only [hexField, padRight, List.mem_append] at hch
    rcases hch with hch | hch
    · have := List.eq_of_mem_replicate hch
      subst this
      decide
    · exact hmem ch hch
  · intro hc
    have := hexDigits_length_le c 4 (by norm_num) (by norm_num; omega)
    simp only [hexField, padRight, List.length_append, List.length_replicate]
    omega
  · intro hc
    have h5 := hexDigits_length_gt c 4 (by norm_num; omega)
    have h8 := hexDigits_length_le c 8 (by norm_num) (by norm_num at h32 ⊢; omega)
    have hpad : hexField c = hexDigits c := by
      have h0 : 4 - (hexDigits c).length = 0 := by omega
      simp [hexField, padRight, h0]
    rw [hpad]
    exact ⟨rfl, h5, h8⟩

/-- The amended C2 at the code 0xDEAD: the classifier returns `<Unknown GL Error 0xdead>`. -/
theorem errorString_unknown_witness :
    0xDEAD < 2 ^ 32 ∧ 0xDEAD ∉ GLRecognized ∧
    GLErrorString 0xDEAD = "<Unknown GL Error 0x" ++ String.mk (hexField 0xDEAD) ++ ">" ∧
    String.mk (hexField 0xDEAD) = "dead" :=
  ⟨by decide, by decide, (errorString_unknown 0xDEAD (by decide)).1 (by decide), by decide⟩

/-! ## Theorems: what the bring-up leaves in the trace -/

theorem releasedWindows_append (a b : List Call) :
    releasedWindows (a ++ b) = releasedWindows a ++ releasedWindows b := by
  simp [releasedWindows, List.filterMap_append]

theorem destroyedSurfaces_append (a b : List Call) :
    destroyedSurfaces (a ++ b) = destroyedSurfaces a ++ destroyedSurfaces b := by
  simp [destroyedSurfaces, List.filterMap_append]

theorem resolvedDrawables_append (a b : List Call) :
    resolvedDrawables (a ++ b) = resolvedDrawables a ++ resolvedDrawables b := by
  simp [resolvedDrawables, List.filterMap_append]

theorem releasedWindows_nil : releasedWindows [] = [] := rfl

theorem releasedWindows_cons (c : Call) (t : List Call) :
    releasedWindows (c :: t) =
      (match c with
        | Call.ANativeWindow_release w => [w]
        | _ => []) ++ releasedWindows t := by
  cases c <;> simp [releasedWindows]

theorem destroyedSurfaces_cons (c : Call) (t : List Call) :
    destroyedSurfaces (c :: t) =
      (match c with
        | Call.eglDestroySurface _ s => [s]
        | _ => []) ++ destroyedSurfaces t := by
  cases c <;> simp [destroyedSurfaces]

theorem resolvedDrawables_cons (c : Call) (t : List Call) :
    resolvedDrawables (c :: t) =
      (match c with
        | Call.ANativeWindow_fromSurface j => [j]
        | _ => []) ++ resolvedDrawables t := by
  cases c <;> simp [resolvedDrawables]

theorem destroyedSurfaces_nil : destroyedSurfaces [] = [] := rfl

theorem resolvedDrawables_nil : resolvedDrawables [] = [] := rfl

theorem lastMakeCurrent_nil : lastMakeCurrent [] = none := rfl

theorem lastMakeCurrent_append (a b : List Call) :
    lastMakeCurrent (a ++ b) = b.foldl currentAfter (lastMakeCurrent a) := by
  simp [lastMakeCurrent, List.foldl_append]

theorem ThrowException_obs (d : Driver) (t t1 : List Call) (n m : String)
    (h : ThrowException d t n m = some t1) : SameObs t t1 := by
  unfold ThrowException at h
  simp only at h
  split at h
  · contradiction
  · split at h
    · contradiction
    · simp only [Option.some.injEq] at h
      subst h
      simp [SameObs, releasedWindows_append, destroyedSurfaces_append, resolvedDrawables_append,
        lastMakeCurrent_append, currentAfter, releasedWindows, destroyedSurfaces,
        resolvedDrawables]

theorem CompileShader_obs (d : Driver) (t : List Call) (ty : Nat) (src : String)
    (r : Nat × List Call) (h : CompileShader d t ty src = some r) : SameObs t r.2 := by
  unfold CompileShader at h
  simp only at h
  split at h
  · contradiction
  · split at h
    · contradiction
    · rename_i r1 hr1
      split at hr1
      · split at hr1
        · contradiction
        · simp only [Option.some.injEq] at hr1
          subst hr1
          simp at h
      · simp only [Option.some.injEq] at hr1
        subst hr1
        split at h
        · contradiction
        · simp only [Option.some.injEq] at h
          subst h
          simp [SameObs, releasedWindows_append, destroyedSurfaces_append,
            resolvedDrawables_append, lastMakeCurrent_append, currentAfter,
            releasedWindows_cons, releasedWindows_nil, destroyedSurfaces_cons,
            destroyedSurfaces_nil, resolvedDrawables_cons, resolvedDrawables_nil]

theorem SameObs.trans {a b c : List Call} (h1 : SameObs a b) (h2 : SameObs b c) : SameObs a c :=
  ⟨h2.1.trans h1.1, h2.2.1.trans h1.2.1, h2.2.2.1.trans h1.2.2.1, h2.2.2.2.trans h1.2.2.2⟩

theorem CreateGlProgram_obs (d : Driver) (t : List Call) (r : Nat × List Call)
    (h : CreateGlProgram d t = some r) : SameObs t r.2 := by
  unfold CreateGlProgram at h
  split at h
  · contradiction
  · rename_i vs t1 hv
    have o1 := CompileShader_obs d t _ _ _ hv
    simp only at h
    split at h
    · contradiction
    · split at h
      · contradiction
      · rename_i fs t2 hf
        have o2 := CompileShader_obs d t1 _ _ _ hf
        split at h
        · contradiction
        · refine SameObs.trans (SameObs.trans o1 o2) ?_
          split at h
          · split at h
            · contradiction
            · simp only [Option.some.injEq] at h
              subst h
              simp only [SameObs]
              split <;>
                simp [releasedWindows_append, destroyedSurfaces_append,
                  resolvedDrawables_append, lastMakeCurrent_append, currentAfter,
                  releasedWindows_cons, releasedWindows_nil, destroyedSurfaces_cons,
                  destroyedSurfaces_nil, resolvedDrawables_cons, resolvedDrawables_nil]
          · simp only [Option.some.injEq] at h
            subst h
            simp [SameObs, releasedWindows_append, destroyedSurfaces_append,
              resolvedDrawables_append, lastMakeCurrent_append, currentAfter,
              releasedWindows_cons, releasedWindows_nil, destroyedSurfaces_cons,
              destroyedSurfaces_nil, resolvedDrawables_cons, resolvedDrawables_nil]

theorem ite_ThrowException_obs (d : Driver) (c : Prop) [Decidable c] (t t1 : List Call)
    (n m : String) (h : (if c then ThrowException d t n m else some t) = some t1) :
    SameObs t t1 := by
  split at h
  · exact ThrowException_obs d t t1 n m h
  · simp only [Option.some.injEq] at h
    subst h
    exact ⟨rfl, rfl, rfl, rfl⟩

/-- What `initContext` leaves behind when it returns: it releases and destroys nothing and
resolves no drawable; when it allocated a record, the pair is null and the last
`eglMakeCurrent` made the pbuffer current with the record's context. -/
theorem initContext_obs (d : Driver) (t : List Call) (r : InitResult)
    (h : initContext d t = some r) :
    releasedWindows r.trace = releasedWindows t ∧
    destroyedSurfaces r.trace = destroyedSurfaces t ∧
    resolvedDrawables r.trace = resolvedDrawables t ∧
    ∀ nc, r.record = some nc →
      nc.windowSurface = (0, 0) ∧
      lastMakeCurrent r.trace = some (nc.pbufferSurface, nc.pbufferSurface, nc.context) := by
  unfold initContext at h
  simp only at h
  split at h
  · contradiction
  split at h
  · contradiction
  rename_i t3 h3
  have o3 := ite_ThrowException_obs _ _ _ _ _ _ h3
  split at h
  · split at h
    · contradiction
    · rename_i t8 h8
      have o8 := ThrowException_obs _ _ _ _ _ h8
      simp only [Option.some.injEq] at h
      subst h
      refine ⟨?_, ?_, ?_, ?_⟩
      · simp [o8.1, o3.1, releasedWindows_append, releasedWindows_cons, releasedWindows_nil]
      · simp [o8.2.1, o3.2.1, destroyedSurfaces_append, destroyedSurfaces_cons, destroyedSurfaces_nil]
      · simp [o8.2.2.1, o3.2.2.1, resolvedDrawables_append, resolvedDrawables_cons, resolvedDrawables_nil]
      · intro nc hnc
        simp at hnc
  · split at h
    · contradiction
    split at h
    · contradiction
    split at h
    · contradiction
    split at h
    · contradiction
    rename_i p t16 h16
    have o16 := CreateGlProgram_obs _ _ _ h16
    simp only [Option.some.injEq] at h
    subst h
    refine ⟨?_, ?_, ?_, ?_⟩
    · simp [o16.1, o3.1, releasedWindows_append, releasedWindows_cons, releasedWindows_nil]
    · simp [o16.2.1, o3.2.1, destroyedSurfaces_append, destroyedSurfaces_cons, destroyedSurfaces_nil]
    · simp [o16.2.2.1, o3.2.2.1, resolvedDrawables_append, resolvedDrawables_cons, resolvedDrawables_nil]
    · intro nc hnc
      simp only [Option.some.injEq] at hnc
      subst hnc
      refine ⟨rfl, ?_⟩
      simp [o16.2.2.2, o3.2.2.2, lastMakeCurrent_append, currentAfter, NativeContext.new]

/-! ## Theorems: detach and attach -/

theorem DestroySurface_attached (nc : NativeContext) (t : List Call)
    (h : nc.windowSurface.1 ≠ 0) :
    DestroySurface nc t =
      ({ nc with windowSurface := (0, 0) },
       t ++ [Call.eglMakeCurrent nc.display nc.pbufferSurface nc.pbufferSurface nc.context,
             Call.eglDestroySurface nc.display nc.windowSurface.2,
             Call.ANativeWindow_release nc.windowSurface.1]) := by
  simp [DestroySurface, h]

theorem DestroySurface_detached (nc : NativeContext) (t : List Call)
    (h : nc.windowSurface.1 = 0) : DestroySurface nc t = (nc, t) := by
  simp [DestroySurface, h]

theorem DestroySurface_record (nc : NativeContext) (t : List Call) :
    (DestroySurface nc t).1 =
      { nc with windowSurface := if nc.windowSurface.1 ≠ 0 then (0, 0) else nc.windowSurface } := by
  by_cases h : nc.windowSurface.1 = 0
  · simp [DestroySurface_detached nc t h, h]
  · simp [DestroySurface_attached nc t h, h]

theorem DestroySurface_pair (nc : NativeContext) (t : List Call) (hinv : PairInvariant nc) :
    (DestroySurface nc t).1.windowSurface = (0, 0) := by
  rw [DestroySurface_record]
  by_cases h : nc.windowSurface.1 = 0
  · have h2 : nc.windowSurface.2 = 0 := by
      by_contra hc
      exact (hinv.2 hc) h
    simp [h, Prod.ext_iff, h2]
  · simp [h]

theorem setWindowSurface_null (d : Driver) (nc : NativeContext) (t : List Call) :
    setWindowSurface d nc t 0 =
      some { ret := false, record := (DestroySurface nc t).1, trace := (DestroySurface nc t).2 } := by
  simp [setWindowSurface]

theorem setWindowSurface_true (d : Driver) (nc : NativeContext) (t : List Call) (j : Nat)
    (r : SetResult) (h : setWindowSurface d nc t j = some r) (ht : r.ret = true) :
    j ≠ 0 ∧ resolvedWindow d nc t j ≠ 0 ∧ createdSurface d nc t j ≠ 0 ∧
    r.record = { nc with windowSurface := (resolvedWindow d nc t j, createdSurface d nc t j) } ∧
    releasedWindows r.trace = releasedWindows (DestroySurface nc t).2 ∧
    destroyedSurfaces r.trace = destroyedSurfaces (DestroySurface nc t).2 ∧
    resolvedDrawables r.trace = resolvedDrawables (DestroySurface nc t).2 ++ [j] ∧
    lastMakeCurrent r.trace =
      some (createdSurface d nc t j, createdSurface d nc t j, nc.context) := by
  have hdisp : (DestroySurface nc t).1.display = nc.display := by rw [DestroySurface_record]
  have hconf : (DestroySurface nc t).1.config = nc.config := by rw [DestroySurface_record]
  have hctx : (DestroySurface nc t).1.context = nc.context := by rw [DestroySurface_record]
  have hpb : (DestroySurface nc t).1.pbufferSurface = nc.pbufferSurface := by
    rw [DestroySurface_record]
  have hprog : (DestroySurface nc t).1.program = nc.program := by rw [DestroySurface_record]
  have hpos : (DestroySurface nc t).1.vPostionHandle = nc.vPostionHandle := by
    rw [DestroySurface_record]
  have hcol : (DestroySurface nc t).1.vColorHandle = nc.vColorHandle := by
    rw [DestroySurface_record]
  have htex : (DestroySurface nc t).1.textureId = nc.textureId := by rw [DestroySurface_record]
  unfold setWindowSurface at h
  simp only [hdisp, hconf, hctx, hpb, hprog, hpos, hcol, htex] at h
  split at h
  · simp only [Option.some.injEq] at h
    subst h
    simp at ht
  · split at h
    · simp only [Option.some.injEq] at h
      subst h
      simp at ht
    · split at h
      · contradiction
      · rename_i hj hw hs
        simp only [Option.some.injEq] at h
        subst h
        refine ⟨hj, hw, hs, rfl, ?_, ?_, ?_, ?_⟩
        · simp [releasedWindows_append, releasedWindows_cons, releasedWindows_nil]
        · simp [destroyedSurfaces_append, destroyedSurfaces_cons, destroyedSurfaces_nil]
        · simp [resolvedDrawables_append, resolvedDrawables_cons, resolvedDrawables_nil]
        · simp [lastMakeCurrent_append, currentAfter, createdSurface, resolvedWindow]

theorem DestroySurface_obs (nc : NativeContext) (t : List Call) :
    releasedWindows (DestroySurface nc t).2 =
      releasedWindows t ++ (if nc.windowSurface.1 ≠ 0 then [nc.windowSurface.1] else []) ∧
    destroyedSurfaces (DestroySurface nc t).2 =
      destroyedSurfaces t ++ (if nc.windowSurface.1 ≠ 0 then [nc.windowSurface.2] else []) ∧
    resolvedDrawables (DestroySurface nc t).2 = resolvedDrawables t ∧
    lastMakeCurrent (DestroySurface nc t).2 =
      (if nc.windowSurface.1 ≠ 0 then some (nc.pbufferSurface, nc.pbufferSurface, nc.context)
       else lastMakeCurrent t) := by
  by_cases h : nc.windowSurface.1 = 0
  · simp [DestroySurface_detached nc t h, h]
  · simp [DestroySurface_attached nc t h, h, releasedWindows_append, releasedWindows_cons,
      releasedWindows_nil, destroyedSurfaces_append, destroyedSurfaces_cons,
      destroyedSurfaces_nil, resolvedDrawables_append, resolvedDrawables_cons,
      resolvedDrawables_nil, lastMakeCurrent_append, currentAfter]

theorem closeContext_eq (nc : NativeContext) (t : List Call) :
    closeContext nc t =
      t ++ closeProgramCalls nc ++ closeWindowCalls nc ++ closeDisplayCalls nc := by
  by_cases hp : nc.program = 0 <;> by_cases hw : nc.windowSurface.1 = 0 <;>
    simp [closeContext, closeProgramCalls, closeWindowCalls, closeDisplayCalls, DestroySurface,
      hp, hw]

/-- C3: on a record that satisfies the pair invariant, `setWindowSurface` returns true exactly
when the drawable is non-null, the resolver yields a non-null native window and the created
surface passes the assertion; it returns false when the drawable is null and when the window
acquisition fails, and whenever it returns false the record ends with a null window and a null
window surface. -/
theorem setWindowSurface_result (d : Driver) (nc : NativeContext) (t : List Call)
    (jsurface : Nat) (hinv : PairInvariant nc) :
    ((∃ r, setWindowSurface d nc t jsurface = some r ∧ r.ret = true) ↔
      (jsurface ≠ 0 ∧
       d.ANativeWindow_fromSurface (DestroySurface nc t).2 jsurface ≠ 0 ∧
       d.eglCreateWindowSurface
         ((DestroySurface nc t).2 ++ [Call.ANativeWindow_fromSurface jsurface])
         nc.display nc.config
         (d.ANativeWindow_fromSurface (DestroySurface nc t).2 jsurface) ≠ 0)) ∧
    (jsurface = 0 →
      ∃ r, setWindowSurface d nc t jsurface = some r ∧ r.ret = false ∧
        r.record.windowSurface = (0, 0)) ∧
    (jsurface ≠ 0 → d.ANativeWindow_fromSurface (DestroySurface nc t).2 jsurface = 0 →
      ∃ r, setWindowSurface d nc t jsurface = some r ∧ r.ret = false ∧
        r.record.windowSurface = (0, 0)) ∧
    (∀ r, setWindowSurface d nc t jsurface = some r → r.ret = false →
      r.record.windowSurface = (0, 0) ∧
      (jsurface = 0 ∨ d.ANativeWindow_fromSurface (DestroySurface nc t).2 jsurface = 0)) := by
  have hpair := DestroySurface_pair nc t hinv
  have hdisp : (DestroySurface nc t).1.display = nc.display := by
    rw [DestroySurface_record]
  have hconf : (DestroySurface nc t).1.config = nc.config := by
    rw [DestroySurface_record]
  by_cases hj : jsurface = 0
  · simp [setWindowSurface, hj, hpair]
  · by_cases hw : d.ANativeWindow_fromSurface (DestroySurface nc t).2 jsurface = 0
    · simp [setWindowSurface, hj, hw, hpair]
    · by_cases hs : d.eglCreateWindowSurface
          ((DestroySurface nc t).2 ++ [Call.ANativeWindow_fromSurface jsurface])
          nc.display nc.config
          (d.ANativeWindow_fromSurface (DestroySurface nc t).2 jsurface) = 0
      · simp [setWindowSurface, hj, hw, hs, hdisp, hconf, EGL_NO_DISPLAY]
      · simp [setWindowSurface, hj, hw, hs, hdisp, hconf, EGL_NO_DISPLAY]

/-- C3 at a concrete input: attaching drawable 9 to the parked record of `okDriver`. -/
theorem setWindowSurface_result_witness :
    PairInvariant okRecord ∧
    ((∃ r, setWindowSurface okDriver okRecord [] 9 = some r ∧ r.ret = true) ↔
      (9 ≠ 0 ∧
       okDriver.ANativeWindow_fromSurface (DestroySurface okRecord []).2 9 ≠ 0 ∧
       okDriver.eglCreateWindowSurface
         ((DestroySurface okRecord []).2 ++ [Call.ANativeWindow_fromSurface 9])
         okRecord.display okRecord.config
         (okDriver.ANativeWindow_fromSurface (DestroySurface okRecord []).2 9) ≠ 0)) :=
  ⟨by decide, (setWindowSurface_result okDriver okRecord [] 9 (by decide)).1⟩

/-- C4: on a record that satisfies the pair invariant and holds a window surface,
`DestroySurface` issues exactly three calls, in this order: `eglMakeCurrent` of the pbuffer
surface (draw and read) with the record's context, `eglDestroySurface` of the window surface,
`ANativeWindow_release` of the native window; and it leaves both slots of the pair null.  On a
record without a window surface it issues no call and leaves the record unchanged. -/
theorem DestroySurface_calls (nc : NativeContext) (t : List Call) (hinv : PairInvariant nc) :
    (nc.windowSurface.2 ≠ 0 →
      DestroySurface nc t =
        ({ nc with windowSurface := (0, 0) },
         t ++ [Call.eglMakeCurrent nc.display nc.pbufferSurface nc.pbufferSurface nc.context,
               Call.eglDestroySurface nc.display nc.windowSurface.2,
               Call.ANativeWindow_release nc.windowSurface.1])) ∧
    (nc.windowSurface.2 = 0 → DestroySurface nc t = (nc, t)) := by
  constructor
  · intro h
    exact DestroySurface_attached nc t (hinv.2 h)
  · intro h
    apply DestroySurface_detached
    by_contra hc
    exact (hinv.1 hc) h

/-- C4 at a concrete input: detaching window 109 / surface 209 from the record of `okDriver`. -/
theorem DestroySurface_calls_witness :
    DestroySurface { okRecord with windowSurface := (109, 209) } [] =
      (okRecord,
       [Call.eglMakeCurrent 1 4 4 3, Call.eglDestroySurface 1 209,
        Call.ANativeWindow_release 109]) :=
  (DestroySurface_calls { okRecord with windowSurface := (109, 209) } []
    (by decide)).1 (by decide)

theorem setWindowSurface_false (d : Driver) (nc : NativeContext) (t : List Call) (j : Nat)
    (r : SetResult) (h : setWindowSurface d nc t j = some r) (hf : r.ret = false) :
    (j = 0 ∨ resolvedWindow d nc t j = 0) ∧
    r.record = (DestroySurface nc t).1 ∧
    releasedWindows r.trace = releasedWindows (DestroySurface nc t).2 ∧
    destroyedSurfaces r.trace = destroyedSurfaces (DestroySurface nc t).2 ∧
    lastMakeCurrent r.trace = lastMakeCurrent (DestroySurface nc t).2 := by
  unfold setWindowSurface at h
  simp only at h
  split at h
  · rename_i hj
    simp only [Option.some.injEq] at h
    subst h
    exact ⟨Or.inl hj, rfl, rfl, rfl, rfl⟩
  · split at h
    · rename_i hj hw
      simp only [Option.some.injEq] at h
      subst h
      refine ⟨Or.inr hw, rfl, ?_, ?_, ?_⟩
      · simp [releasedWindows_append, releasedWindows_cons, releasedWindows_nil]
      · simp [destroyedSurfaces_append, destroyedSurfaces_cons, destroyedSurfaces_nil]
      · simp [lastMakeCurrent_append, currentAfter]
    · split at h
      · contradiction
      · simp only [Option.some.injEq] at h
        subst h
        simp at hf

theorem PairInvariant_DestroySurface (nc : NativeContext) (t : List Call)
    (hinv : PairInvariant nc) : PairInvariant (DestroySurface nc t).1 := by
  rw [PairInvariant, DestroySurface_pair nc t hinv]

theorem step_PairInvariant (d : Driver) (s s1 : NativeContext × List Call) (op : Op)
    (hinv : PairInvariant s.1) (h : step d s op = some s1) : PairInvariant s1.1 := by
  cases op with
  | renderTexture =>
    simp only [step, Option.some.injEq] at h
    subst h
    exact hinv
  | setWindowSurface j =>
    simp only [step, Option.map_eq_some'] at h
    obtain ⟨r, hr, hs⟩ := h
    subst hs
    cases hret : r.ret with
    | false =>
      have hrec := (setWindowSurface_false d s.1 s.2 j r hr hret).2.1
      simp only [hrec]
      exact PairInvariant_DestroySurface s.1 s.2 hinv
    | true =>
      obtain ⟨_, hw, hs, hrec, _⟩ := setWindowSurface_true d s.1 s.2 j r hr hret
      simp only [hrec, PairInvariant]
      exact ⟨fun _ => hs, fun _ => hw⟩

theorem run_PairInvariant (d : Driver) (ops : List Op) :
    ∀ s s1 : NativeContext × List Call, PairInvariant s.1 → run d s ops = some s1 →
      PairInvariant s1.1 := by
  induction ops with
  | nil =>
    intro s s1 hinv h
    simp only [run, Option.some.injEq] at h
    subst h
    exact hinv
  | cons op ops ih =>
    intro s s1 hinv h
    simp only [run, Option.bind_eq_some] at h
    obtain ⟨s2, h2, hrest⟩ := h
    exact ih s2 s1 (step_PairInvariant d s s2 op hinv h2) hrest

/-- C10: in every state of the record reachable from `initContext` by any sequence of
`setWindowSurface` and `renderTexture` calls, with any drawables and any driver, the
native-window slot is non-null if and only if the window-surface slot is non-null. -/
theorem reachable_pairInvariant (d : Driver) (s : NativeContext × List Call)
    (h : Reachable d s) : s.1.windowSurface.1 ≠ 0 ↔ s.1.windowSurface.2 ≠ 0 := by
  obtain ⟨t0, r, nc0, ops, hinit, hrec, hrun⟩ := h
  have h0 : PairInvariant nc0 := by
    have := ((initContext_obs d t0 r hinit).2.2.2 nc0 hrec).1
    simp [PairInvariant, this]
  exact run_PairInvariant d ops (nc0, r.trace) s h0 hrun

/-- C10 at a concrete input: create, attach drawable 9, render, attach drawable 11. -/
theorem reachable_pairInvariant_witness :
    Reachable okDriver
      (okAttached 11, okTrace ++ okAttachCalls 9 ++ (renderTexture okRecord []).2 ++
        okDetachCalls 9 ++ okAttachCalls 11) ∧
    ((100 + 11 : Nat) ≠ 0 ↔ (200 + 11 : Nat) ≠ 0) :=
  ⟨⟨[], ⟨4096, some okRecord, okTrace⟩, okRecord,
      [Op.setWindowSurface 9, Op.renderTexture, Op.setWindowSurface 11],
      by decide, rfl, by decide⟩,
   reachable_pairInvariant okDriver
     (okAttached 11, okTrace ++ okAttachCalls 9 ++ (renderTexture okRecord []).2 ++
        okDetachCalls 9 ++ okAttachCalls 11)
     ⟨[], ⟨4096, some okRecord, okTrace⟩, okRecord,
      [Op.setWindowSurface 9, Op.renderTexture, Op.setWindowSurface 11],
      by decide, rfl, by decide⟩⟩

theorem closeContext_obs (nc : NativeContext) (t : List Call) :
    releasedWindows (closeContext nc t) =
      releasedWindows t ++ (if nc.windowSurface.1 ≠ 0 then [nc.windowSurface.1] else []) ∧
    destroyedSurfaces (closeContext nc t) =
      destroyedSurfaces t ++ (if nc.windowSurface.1 ≠ 0 then [nc.windowSurface.2] else []) ++
        [nc.pbufferSurface] ∧
    resolvedDrawables (closeContext nc t) = resolvedDrawables t := by
  rw [closeContext_eq]
  by_cases hp : nc.program = 0 <;> by_cases hw : nc.windowSurface.1 = 0 <;>
    simp [closeProgramCalls, closeWindowCalls, closeDisplayCalls, hp, hw,
      releasedWindows_append, releasedWindows_cons, releasedWindows_nil,
      destroyedSurfaces_append, destroyedSurfaces_cons, destroyedSurfaces_nil,
      resolvedDrawables_append, resolvedDrawables_cons, resolvedDrawables_nil]

/-- C6: in the sequence `initContext`, `setWindowSurface(A)`, `setWindowSurface(B)`,
`closeContext` with both attaches succeeding, two native windows are acquired (for `A`, then
for `B`) and the releases of the whole trace are exactly the window of `A` followed by the
window of `B`; the window surfaces destroyed are exactly the surface of `A` followed by the
surface of `B` (followed by the pbuffer).  The release and destroy for `A` are issued by the
second `setWindowSurface`, those for `B` by `closeContext`.  When the two windows (and the
surfaces) are distinct handles, each is released (destroyed) exactly once. -/
theorem reattach_release_balance (d : Driver) (r : InitResult) (nc0 : NativeContext)
    (A B : Nat) (rA rB : SetResult)
    (hinit : initContext d [] = some r) (hrec : r.record = some nc0)
    (hA : setWindowSurface d nc0 r.trace A = some rA) (hAt : rA.ret = true)
    (hB : setWindowSurface d rA.record rA.trace B = some rB) (hBt : rB.ret = true) :
    rA.record.windowSurface.1 ≠ 0 ∧ rB.record.windowSurface.1 ≠ 0 ∧
    resolvedDrawables (closeContext rB.record rB.trace) = [A, B] ∧
    releasedWindows (closeContext rB.record rB.trace) =
      [rA.record.windowSurface.1, rB.record.windowSurface.1] ∧
    destroyedSurfaces (closeContext rB.record rB.trace) =
      [rA.record.windowSurface.2, rB.record.windowSurface.2, nc0.pbufferSurface] ∧
    releasedWindows r.trace = [] ∧ destroyedSurfaces r.trace = [] ∧
    releasedWindows rA.trace = [] ∧ destroyedSurfaces rA.trace = [] ∧
    releasedWindows rB.trace = [rA.record.windowSurface.1] ∧
    destroyedSurfaces rB.trace = [rA.record.windowSurface.2] ∧
    (rA.record.windowSurface.1 ≠ rB.record.windowSurface.1 →
      (releasedWindows (closeContext rB.record rB.trace)).count rA.record.windowSurface.1 = 1 ∧
      (releasedWindows (closeContext rB.record rB.trace)).count rB.record.windowSurface.1 = 1) ∧
    (rA.record.windowSurface.2 ≠ rB.record.windowSurface.2 →
     rA.record.windowSurface.2 ≠ nc0.pbufferSurface →
     rB.record.windowSurface.2 ≠ nc0.pbufferSurface →
      (destroyedSurfaces (closeContext rB.record rB.trace)).count rA.record.windowSurface.2 = 1 ∧
      (destroyedSurfaces (closeContext rB.record rB.trace)).count rB.record.windowSurface.2 = 1) := by
  obtain ⟨irel, ides, ires, hnc⟩ := initContext_obs d [] r hinit
  have hpair0 := (hnc nc0 hrec).1
  have hw0 : nc0.windowSurface.1 = 0 := by rw [hpair0]
  obtain ⟨_, hwA, _, hrecA, relA, desA, resA, _⟩ :=
    setWindowSurface_true d nc0 r.trace A rA hA hAt
  obtain ⟨_, hwB, _, hrecB, relB, desB, resB, _⟩ :=
    setWindowSurface_true d rA.record rA.trace B rB hB hBt
  have hwA' : rA.record.windowSurface.1 ≠ 0 := by rw [hrecA]; exact hwA
  have hwB' : rB.record.windowSurface.1 ≠ 0 := by rw [hrecB]; exact hwB
  have hpb : rB.record.pbufferSurface = nc0.pbufferSurface := by rw [hrecB, hrecA]
  obtain ⟨d0rel, d0des, d0res, _⟩ := DestroySurface_obs nc0 r.trace
  obtain ⟨dArel, dAdes, dAres, _⟩ := DestroySurface_obs rA.record rA.trace
  obtain ⟨crel, cdes, cres⟩ := closeContext_obs rB.record rB.trace
  have e1 : releasedWindows rA.trace = [] := by
    rw [relA, d0rel, irel]; simp [hw0, releasedWindows_nil]
  have e2 : destroyedSurfaces rA.trace = [] := by
    rw [desA, d0des, ides]; simp [hw0, destroyedSurfaces_nil]
  have e3 : resolvedDrawables rA.trace = [A] := by
    rw [resA, d0res, ires]; simp [resolvedDrawables_nil]
  have e4 : releasedWindows rB.trace = [rA.record.windowSurface.1] := by
    rw [relB, dArel, e1]; simp [hwA']
  have e5 : destroyedSurfaces rB.trace = [rA.record.windowSurface.2] := by
    rw [desB, dAdes, e2]; simp [hwA']
  have e6 : resolvedDrawables rB.trace = [A, B] := by
    rw [resB, dAres, e3]; simp
  have e7 : releasedWindows (closeContext rB.record rB.trace) =
      [rA.record.windowSurface.1, rB.record.windowSurface.1] := by
    rw [crel, e4]; simp [hwB']
  have e8 : destroyedSurfaces (closeContext rB.record rB.trace) =
      [rA.record.windowSurface.2, rB.record.windowSurface.2, nc0.pbufferSurface] := by
    rw [cdes, e5, hpb]; simp [hwB']
  refine ⟨hwA', hwB', by rw [cres, e6], e7, e8, by rw [irel, releasedWindows_nil],
    by rw [ides, destroyedSurfaces_nil], e1, e2, e4, e5, ?_, ?_⟩
  · intro hne
    rw [e7]
    simp [List.count_cons, hne, Ne.symm hne]
  · intro hne hA' hB'
    rw [e8]
    simp [List.count_cons, hne, Ne.symm hne, Ne.symm hA', Ne.symm hB']

/-- C6 at a concrete input: `okDriver`, `A` = 9, `B` = 11. -/
theorem reattach_release_balance_witness :
    releasedWindows (closeContext (okAttached 11)
      (okTrace ++ okAttachCalls 9 ++ okDetachCalls 9 ++ okAttachCalls 11)) = [109, 111] ∧
    destroyedSurfaces (closeContext (okAttached 11)
      (okTrace ++ okAttachCalls 9 ++ okDetachCalls 9 ++ okAttachCalls 11)) = [209, 211, 4] :=
  have h := reattach_release_balance okDriver ⟨4096, some okRecord, okTrace⟩ okRecord 9 11
    ⟨true, okAttached 9, okTrace ++ okAttachCalls 9⟩
    ⟨true, okAttached 11, okTrace ++ okAttachCalls 9 ++ okDetachCalls 9 ++ okAttachCalls 11⟩
    (by decide) rfl (by decide) rfl (by decide) rfl
  ⟨h.2.2.2.1, h.2.2.2.2.1⟩

/-- C7, as stated, fails.  With `okDriver`, after `initContext` and a successful attach of
drawable 9 the resources were acquired in the order display, context, pbuffer surface,
program, texture name, native window, window surface; `closeContext` releases program, window
surface, native window, pbuffer surface, context, display.  That is not the reverse of the
acquisition order, and the texture name is not among the releases. -/
theorem closeContext_not_reverse_order :
    initContext okDriver [] = some ⟨4096, some okRecord, okTrace⟩ ∧
    setWindowSurface okDriver okRecord okTrace 9 =
      some ⟨true, okAttached 9, okTrace ++ okAttachCalls 9⟩ ∧
    acquired (okTrace ++ okAttachCalls 9) =
      [Resource.display, Resource.context, Resource.pbufferSurface, Resource.program,
       Resource.textureName, Resource.nativeWindow, Resource.windowSurface] ∧
    closeContext (okAttached 9) [] =
      [Call.glDeleteProgram 6, Call.eglMakeCurrent 1 4 4 3, Call.eglDestroySurface 1 209,
       Call.ANativeWindow_release 109, Call.eglDestroySurface 1 4, Call.eglMakeCurrent 1 0 0 0,
       Call.eglDestroyContext 1 3, Call.eglTerminate 1] ∧
    released (okAttached 9) (closeContext (okAttached 9) []) =
      [Resource.program, Resource.windowSurface, Resource.nativeWindow,
       Resource.pbufferSurface, Resource.context, Resource.display] ∧
    released (okAttached 9) (closeContext (okAttached 9) []) ≠
      (acquired (okTrace ++ okAttachCalls 9)).reverse ∧
    Resource.textureName ∉ released (okAttached 9) (closeContext (okAttached 9) []) := by
  decide

/-- C7, amended: `closeContext` appends to the trace, in this order, `glDeleteProgram` of the
program when its handle is non-zero; for a surviving attach `eglMakeCurrent` of the pbuffer,
`eglDestroySurface` of the window surface and `ANativeWindow_release` of the native window;
then `eglDestroySurface` of the pbuffer, `eglMakeCurrent` of no surface and no context,
`eglDestroyContext` and `eglTerminate`.  So program, window surface, native window, pbuffer
surface, context and display are each released exactly once, in that order. -/
theorem closeContext_releases (nc : NativeContext) (t : List Call) :
    closeContext nc t =
      t ++ (if nc.program ≠ 0 then [Call.glDeleteProgram nc.program] else []) ++
        (if nc.windowSurface.1 ≠ 0 then
          [Call.eglMakeCurrent nc.display nc.pbufferSurface nc.pbufferSurface nc.context,
           Call.eglDestroySurface nc.display nc.windowSurface.2,
           Call.ANativeWindow_release nc.windowSurface.1]
         else []) ++
        [Call.eglDestroySurface nc.display nc.pbufferSurface,
         Call.eglMakeCurrent nc.display EGL_NO_SURFACE EGL_NO_SURFACE EGL_NO_CONTEXT,
         Call.eglDestroyContext nc.display nc.context,
         Call.eglTerminate nc.display] ∧
    (nc.windowSurface.2 ≠ nc.pbufferSurface →
      released nc (closeContext nc []) =
        (if nc.program ≠ 0 then [Resource.program] else []) ++
        (if nc.windowSurface.1 ≠ 0 then [Resource.windowSurface, Resource.nativeWindow]
         else []) ++
        [Resource.pbufferSurface, Resource.context, Resource.display]) := by
  constructor
  · rw [closeContext_eq]
    rfl
  · intro hne
    rw [closeContext_eq]
    by_cases hp : nc.program = 0 <;> by_cases hw : nc.windowSurface.1 = 0 <;>
      simp [released, closeProgramCalls, closeWindowCalls, closeDisplayCalls, hp, hw, hne]

/-- The amended C7 at a concrete input: the record of `okDriver` with drawable 9 attached. -/
theorem closeContext_releases_witness :
    (okAttached 9).windowSurface.2 ≠ (okAttached 9).pbufferSurface ∧
    released (okAttached 9) (closeContext (okAttached 9) []) =
      [Resource.program, Resource.windowSurface, Resource.nativeWindow,
       Resource.pbufferSurface, Resource.context, Resource.display] :=
  ⟨by decide, (closeContext_releases (okAttached 9) []).2 (by decide)⟩

/-- C8 at the failing input: when `eglInitialize` fails (`initFailDriver`), `initContext`
throws the `RuntimeException` and then goes on: it issues the same 28 calls a successful
bring-up issues after `eglInitialize`, allocates the record and returns its non-zero address.
When `eglChooseConfig` fails (`chooseFailDriver`) it does what the claim says: the exception is
the last call, no record is allocated and 0 is returned. -/
theorem initContext_continues_after_eglInitialize_failure :
    (initContext initFailDriver []).map (fun r => (r.handle, r.record)) =
      some (4096, some okRecord) ∧
    (initContext initFailDriver []).map (fun r => r.trace.take 4) =
      some [Call.eglGetDisplay 0, Call.eglInitialize 1,
            Call.FindClass "java/lang/RuntimeException",
            Call.ThrowNew 8 "EGL Error: eglInitialize fail."] ∧
    (initContext initFailDriver []).map (fun r => r.trace.drop 4) = some (okTrace.drop 2) ∧
    (okTrace.drop 2).length = 28 ∧
    initContext chooseFailDriver [] =
      some ⟨0, none,
        [Call.eglGetDisplay 0, Call.eglInitialize 1, Call.eglQueryString 1 EGL_VENDOR,
         Call.eglQueryString 1 EGL_VERSION,
         Call.androidLog ANDROID_LOG_DEBUG LOG_TAG "EGL Initialized [Vendor: %s,Version: %s]"
           ["Unknown", "Unknown"],
         Call.eglChooseConfig 1 [EGL_RENDERABLE_TYPE, EGL_OPENGL_ES2_BIT, EGL_SURFACE_TYPE,
           EGL_WINDOW_BIT ||| EGL_PBUFFER_BIT, EGL_RECORDABLE_ANDROID, EGL_TRUE, EGL_NONE] 1,
         Call.FindClass "java/lang/IllegalArgumentException",
         Call.ThrowNew 8 "EGL Error: eglChooseConfig failed. "]⟩ := by
  decide

/-- C9 at the failing input: when the program does not link (`linkFailDriver`),
`CreateGlProgram` deletes program 6 and returns 6; `initContext` caches 6 in the record; and
`closeContext` deletes program 6 a second time. -/
theorem CreateGlProgram_returns_deleted_program :
    (CreateGlProgram linkFailDriver []).map (fun r => (r.1, r.2.drop 13)) =
      some (6, [Call.glGetProgramiv 6 GL_INFO_LOG_LENGTH,
                Call.androidLog ANDROID_LOG_ERROR LOG_TAG "Unable to link program:\n %s."
                  ["(unknown error)"],
                Call.glDeleteProgram 6]) ∧
    (initContext linkFailDriver []).map (fun r => (r.handle, r.record)) =
      some (4096, some okRecord) ∧
    okRecord.program = 6 ∧
    (initContext linkFailDriver []).map
        (fun r => (r.trace.count (Call.glDeleteProgram 6),
                   (closeContext okRecord r.trace).count (Call.glDeleteProgram 6))) =
      some (1, 2) := by
  decide

/-! ## Theorems: the current drawable -/

theorem renderTexture_lastMakeCurrent (nc : NativeContext) (t : List Call) :
    lastMakeCurrent (renderTexture nc t).2 = lastMakeCurrent t := by
  simp [renderTexture, lastMakeCurrent_append, currentAfter]

theorem setWindowSurface_false_current (d : Driver) (nc : NativeContext) (t : List Call)
    (j : Nat) (r : SetResult)
    (hcur : lastMakeCurrent t = some (expectedCurrent nc, expectedCurrent nc, nc.context))
    (h : setWindowSurface d nc t j = some r) (hf : r.ret = false) :
    r.record.windowSurface.1 = 0 ∧
    lastMakeCurrent r.trace =
      some (r.record.pbufferSurface, r.record.pbufferSurface, r.record.context) := by
  obtain ⟨_, hrec, _, _, hlast⟩ := setWindowSurface_false d nc t j r h hf
  have hobs := (DestroySurface_obs nc t).2.2.2
  rw [hlast, hobs, hrec, DestroySurface_record]
  by_cases hw : nc.windowSurface.1 = 0
  · simp [hw, hcur, expectedCurrent]
  · simp [hw]

theorem step_current (d : Driver) (s s1 : NativeContext × List Call) (op : Op)
    (hcur : lastMakeCurrent s.2 = some (expectedCurrent s.1, expectedCurrent s.1, s.1.context))
    (h : step d s op = some s1) :
    lastMakeCurrent s1.2 = some (expectedCurrent s1.1, expectedCurrent s1.1, s1.1.context) := by
  cases op with
  | renderTexture =>
    simp only [step, Option.some.injEq] at h
    subst h
    simp only [renderTexture_lastMakeCurrent]
    exact hcur
  | setWindowSurface j =>
    simp only [step, Option.map_eq_some'] at h
    obtain ⟨r, hr, hs⟩ := h
    subst hs
    cases hret : r.ret with
    | false =>
      obtain ⟨hw, hlast⟩ := setWindowSurface_false_current d s.1 s.2 j r hcur hr hret
      simp only [hlast, expectedCurrent, hw]
      simp
    | true =>
      obtain ⟨_, hw, _, hrec, _, _, _, hlast⟩ := setWindowSurface_true d s.1 s.2 j r hr hret
      simp only [hlast, hrec, expectedCurrent]
      simp [hw]

theorem run_current (d : Driver) (ops : List Op) :
    ∀ s s1 : NativeContext × List Call,
      lastMakeCurrent s.2 = some (expectedCurrent s.1, expectedCurrent s.1, s.1.context) →
      run d s ops = some s1 →
      lastMakeCurrent s1.2 = some (expectedCurrent s1.1, expectedCurrent s1.1, s1.1.context) := by
  induction ops with
  | nil =>
    intro s s1 hcur h
    simp only [run, Option.some.injEq] at h
    subst h
    exact hcur
  | cons op ops ih =>
    intro s s1 hcur h
    simp only [run, Option.bind_eq_some] at h
    obtain ⟨s2, h2, hrest⟩ := h
    exact ih s2 s1 (step_current d s s2 op hcur h2) hrest

theorem Reachable_current (d : Driver) (s : NativeContext × List Call) (h : Reachable d s) :
    lastMakeCurrent s.2 = some (expectedCurrent s.1, expectedCurrent s.1, s.1.context) := by
  obtain ⟨t0, r, nc0, ops, hinit, hrec, hrun⟩ := h
  obtain ⟨hpair, hlast⟩ := (initContext_obs d t0 r hinit).2.2.2 nc0 hrec
  refine run_current d ops (nc0, r.trace) s ?_ hrun
  simp [hlast, expectedCurrent, hpair]

/-- C11: take the drawable named by the most recent `eglMakeCurrent` as the current one.  In
every state reachable from `initContext` by `setWindowSurface` and `renderTexture` calls, with
any driver and any drawables, it is current for draw and read with the record's context, and
it is the record's window surface when a window is attached and the record's pbuffer surface
when none is.  In particular it is the pbuffer right after `initContext`, after
`setWindowSurface(null)` (which always returns false), and after any `setWindowSurface` that
returns false, such as a failed window acquisition. -/
theorem reachable_current_drawable (d : Driver) :
    (∀ s, Reachable d s →
      lastMakeCurrent s.2 =
        some (if s.1.windowSurface.1 ≠ 0 then s.1.windowSurface.2 else s.1.pbufferSurface,
              if s.1.windowSurface.1 ≠ 0 then s.1.windowSurface.2 else s.1.pbufferSurface,
              s.1.context)) ∧
    (∀ t0 r nc, initContext d t0 = some r → r.record = some nc →
      nc.windowSurface.1 = 0 ∧
      lastMakeCurrent r.trace = some (nc.pbufferSurface, nc.pbufferSurface, nc.context)) ∧
    (∀ s, Reachable d s →
      ∃ r, setWindowSurface d s.1 s.2 0 = some r ∧ r.ret = false ∧
        r.record.windowSurface.1 = 0 ∧
        lastMakeCurrent r.trace =
          some (r.record.pbufferSurface, r.record.pbufferSurface, r.record.context)) ∧
    (∀ s j r, Reachable d s → setWindowSurface d s.1 s.2 j = some r → r.ret = false →
      (j = 0 ∨ resolvedWindow d s.1 s.2 j = 0) ∧
      r.record.windowSurface.1 = 0 ∧
      lastMakeCurrent r.trace =
        some (r.record.pbufferSurface, r.record.pbufferSurface, r.record.context)) := by
  refine ⟨?_, ?_, ?_, ?_⟩
  · intro s hs
    exact Reachable_current d s hs
  · intro t0 r nc hinit hrec
    obtain ⟨hpair, hlast⟩ := (initContext_obs d t0 r hinit).2.2.2 nc hrec
    exact ⟨by rw [hpair], hlast⟩
  · intro s hs
    have hnull := setWindowSurface_null d s.1 s.2
    obtain ⟨hw, hlast⟩ :=
      setWindowSurface_false_current d s.1 s.2 0 _ (Reachable_current d s hs) hnull rfl
    exact ⟨_, hnull, rfl, hw, hlast⟩
  · intro s j r hs hr hf
    obtain ⟨hw, hlast⟩ :=
      setWindowSurface_false_current d s.1 s.2 j r (Reachable_current d s hs) hr hf
    exact ⟨(setWindowSurface_false d s.1 s.2 j r hr hf).1, hw, hlast⟩

/-- C11 at a concrete input: with `okDriver`, after create, attach of drawable 9 and a render
the window surface 209 is current; after the following `setWindowSurface(null)` the pbuffer 4
is. -/
theorem reachable_current_drawable_witness :
    Reachable okDriver
      (okAttached 9, okTrace ++ okAttachCalls 9 ++ (renderTexture okRecord []).2) ∧
    lastMakeCurrent (okTrace ++ okAttachCalls 9 ++ (renderTexture okRecord []).2) =
      some (209, 209, 3) ∧
    ∃ r, setWindowSurface okDriver (okAttached 9)
        (okTrace ++ okAttachCalls 9 ++ (renderTexture okRecord []).2) 0 = some r ∧
      r.ret = false ∧ r.record.windowSurface.1 = 0 ∧
      lastMakeCurrent r.trace =
        some (r.record.pbufferSurface, r.record.pbufferSurface, r.record.context) :=
  have hreach : Reachable okDriver
      (okAttached 9, okTrace ++ okAttachCalls 9 ++ (renderTexture okRecord []).2) :=
    ⟨[], ⟨4096, some okRecord, okTrace⟩, okRecord,
      [Op.setWindowSurface 9, Op.renderTexture], by decide, rfl, by decide⟩
  ⟨hreach, (reachable_current_drawable okDriver).1 _ hreach,
   (reachable_current_drawable okDriver).2.2.1 _ hreach⟩

/-! ## Theorems: what the draw calls read -/

theorem drawState_append (a b : List Call) :
    drawState (a ++ b) = b.foldl drawStep (drawState a) := by
  simp [drawState, List.foldl_append]

theorem ThrowException_draw (d : Driver) (t t1 : List Call) (n m : String)
    (h : ThrowException d t n m = some t1) : drawState t1 = drawState t := by
  unfold ThrowException at h
  simp only at h
  split at h
  · contradiction
  · split at h
    · contradiction
    · simp only [Option.some.injEq] at h
      subst h
      simp [drawState_append, drawStep]

theorem Triangle.CompileShader_draw (d : Driver) (t : List Call) (ty : Nat) (src : String)
    (r : Nat × List Call) (h : Triangle.CompileShader d t ty src = some r) :
    drawState r.2 = drawState t := by
  unfold Triangle.CompileShader at h
  simp only at h
  split at h
  · contradiction
  · split at h
    · contradiction
    · rename_i r1 hr1
      split at hr1
      · split at hr1
        · contradiction
        · simp only [Option.some.injEq] at hr1
          subst hr1
          simp at h
      · simp only [Option.some.injEq] at hr1
        subst hr1
        split at h
        · contradiction
        · simp only [Option.some.injEq] at h
          subst h
          simp [drawState_append, drawStep]

theorem Triangle.CreateGlProgram_draw (d : Driver) (t : List Call) (r : Nat × List Call)
    (h : Triangle.CreateGlProgram d t = some r) : drawState r.2 = drawState t := by
  unfold Triangle.CreateGlProgram at h
  split at h
  · contradiction
  · rename_i vs t1 hv
    have o1 := Triangle.CompileShader_draw d t _ _ _ hv
    simp only at h o1
    split at h
    · contradiction
    · split at h
      · contradiction
      · rename_i fs t2 hf
        have o2 := Triangle.CompileShader_draw d t1 _ _ _ hf
        simp only at o2
        split at h
        · contradiction
        · split at h
          · split at h
            · contradiction
            · simp only [Option.some.injEq] at h
              subst h
              simp only
              split <;> simp [drawState_append, drawStep, o1, o2]
          · simp only [Option.some.injEq] at h
            subst h
            simp [drawState_append, drawStep, o1, o2]

theorem drawTriangle_drawState (d : Driver) (t : List Call) (j : Nat) (r : Nat × List Call)
    (h : drawTriangle d t j = some r) :
    r.1 = 0 ∧
    (drawState r.2 = drawState t ∨
     drawState r.2 =
       ⟨some (3, GL_FLOAT, 12, Triangle.vertices),
        (drawState t).reads ++ [⟨3, GL_FLOAT, 12, 0, 3, Triangle.vertices⟩]⟩) := by
  unfold drawTriangle at h
  simp only at h
  split at h
  · split at h
    · contradiction
    · rename_i t4 h4
      have o4 := ThrowException_draw _ _ _ _ _ h4
      simp only [Option.some.injEq] at h
      subst h
      refine ⟨rfl, Or.inl ?_⟩
      simp [o4, drawState_append, drawStep]
  · split at h
    · contradiction
    split at h
    · contradiction
    rename_i p t16 h16
    have o16 := Triangle.CreateGlProgram_draw _ _ _ h16
    simp only [Option.some.injEq] at h
    subst h
    refine ⟨rfl, Or.inr ?_⟩
    simp [o16, drawState_append, drawStep]

/-- C12: `renderTexture` configures the position attribute with 3 `GL_FLOAT` components per
vertex and a stride of 12 bytes over the array `vertices` and draws 3 vertices from 0.  The
draw reads the float positions 0 to 8, so it needs 9 floats; the array holds 6 (3 vertices of
2 floats), and the positions 6, 7 and 8 lie outside it.  `drawTriangle`, whenever it gets to
its draw, uses the same configuration over its own array of exactly 9 floats, and reads
nothing outside it. -/
theorem renderTexture_reads_past_vertices :
    (∀ nc t, (renderTexture nc t).2 =
      t ++ [Call.glEnableVertexAttribArray (toGLuint nc.vPostionHandle),
            Call.glVertexAttribPointer (toGLuint nc.vPostionHandle) 3 GL_FLOAT false 12
              renderVertices,
            Call.glUniform4fv nc.vColorHandle 1 renderColors,
            Call.glUseProgram nc.program,
            Call.glDrawArrays GL_TRIANGLES 0 3]) ∧
    (∀ nc t, drawReads (renderTexture nc t).2 =
      drawReads t ++ [⟨3, GL_FLOAT, 12, 0, 3, renderVertices⟩]) ∧
    DrawRead.indices ⟨3, GL_FLOAT, 12, 0, 3, renderVertices⟩ = [0, 1, 2, 3, 4, 5, 6, 7, 8] ∧
    DrawRead.required ⟨3, GL_FLOAT, 12, 0, 3, renderVertices⟩ = 9 ∧
    renderVertices.length = 6 ∧
    renderVertices.length = 3 * 2 ∧
    renderVertices.length < DrawRead.required ⟨3, GL_FLOAT, 12, 0, 3, renderVertices⟩ ∧
    DrawRead.outOfBounds ⟨3, GL_FLOAT, 12, 0, 3, renderVertices⟩ = [6, 7, 8] ∧
    (∀ d t j r, drawTriangle d t j = some r →
      drawReads r.2 = drawReads t ∨
      drawReads r.2 = drawReads t ++ [⟨3, GL_FLOAT, 12, 0, 3, Triangle.vertices⟩]) ∧
    drawReads okTriangleTrace = [⟨3, GL_FLOAT, 12, 0, 3, Triangle.vertices⟩] ∧
    DrawRead.indices ⟨3, GL_FLOAT, 12, 0, 3, Triangle.vertices⟩ =
      [0, 1, 2, 3, 4, 5, 6, 7, 8] ∧
    DrawRead.required ⟨3, GL_FLOAT, 12, 0, 3, Triangle.vertices⟩ = 9 ∧
    Triangle.vertices.length = 9 ∧
    DrawRead.outOfBounds ⟨3, GL_FLOAT, 12, 0, 3, Triangle.vertices⟩ = [] := by
  refine ⟨?_, ?_, by decide, by decide, by decide, by decide, by decide, by decide, ?_,
    by decide, by decide, by decide, by decide, by decide⟩
  · intro nc t
    simp [renderTexture]
  · intro nc t
    simp [drawReads, renderTexture, drawState_append, drawStep]
  · intro d t j r h
    rcases (drawTriangle_drawState d t j r h).2 with h1 | h1
    · left
      simp [drawReads, h1]
    · right
      simp [drawReads, h1]

/-- C12 at a concrete input: `drawTriangle` with `okDriver` on drawable 9 gets to its draw,
which reads the 9 floats of its array. -/
theorem renderTexture_reads_past_vertices_witness :
    drawTriangle okDriver [] 9 = some (0, okTriangleTrace) ∧
    (drawReads okTriangleTrace = drawReads [] ∨
     drawReads okTriangleTrace =
       drawReads [] ++ [⟨3, GL_FLOAT, 12, 0, 3, Triangle.vertices⟩]) :=
  ⟨by decide,
   renderTexture_reads_past_vertices.2.2.2.2.2.2.2.2.1 okDriver [] 9 (0, okTriangleTrace)
     (by decide)⟩

end GLRenderer
